import Mathlib

set_option maxHeartbeats 1000000

/-!
Shallow embedding of the resilience and read-consistency core of the
golang-enterprise-microservice-system repository: the circuit-breaker wrapper
(common/circuitbreaker), the token-bucket rate limiter (common/middleware),
the cache-aside layer of the order and repository services, the user-service
HTTP client of the order service, and the order-service configuration loader.

Pure Go functions become Lean functions; stateful components become explicit
state-passing functions.  Time is modelled as a rational number of seconds and
float64 token arithmetic is modelled exactly over ℚ.  Components whose code is
not part of the repository source (the wrapped gobreaker state machine, the
x/time/rate token bucket, and the common/cache redis client) are modelled from
the specification; their doc comments say so explicitly.
-/

/-! ### Association-list helpers (model of in-place map mutation and of redis key-value storage) -/

/-- Replace the value stored under a key, or add the binding if the key is absent. -/
def setEntry {α : Type} : List (String × α) → String → α → List (String × α)
  | [], k, v => [(k, v)]
  | (k1, v1) :: rest, k, v =>
    if k1 = k then (k, v) :: rest else (k1, v1) :: setEntry rest k v

/-- Remove every binding of a key. -/
def removeEntry {α : Type} (l : List (String × α)) (k : String) : List (String × α) :=
  l.filter (fun kv => kv.fst ≠ k)

/-! ### Decimal rendering (model of the Go d format verb used to build cache keys) -/

/-- Decimal digit characters of a natural number, most significant first.
Fuel-based structural recursion so that terms reduce in the kernel. -/
def natStrAux : Nat → Nat → List Char
  | 0, _ => []
  | fuel + 1, n =>
    if n < 10 then [Nat.digitChar n]
    else natStrAux fuel (n / 10) ++ [Nat.digitChar (n % 10)]

/-- Decimal rendering of a natural number, as produced by the Go d verb for unsigned values. -/
def natStr (n : Nat) : String := ⟨natStrAux (n + 1) n⟩

/-- Value of a decimal digit character. -/
def charDigit (c : Char) : Nat := c.toNat - 48

/-- Value of a most-significant-first digit-character list. -/
def decodeDigits : List Char → Nat
  | [] => 0
  | c :: cs => charDigit c * 10 ^ cs.length + decodeDigits cs

/-- Decimal rendering of a Go int, as produced by the d verb. -/
def intStr (n : Int) : String :=
  if n < 0 then "-" ++ natStr n.natAbs else natStr n.toNat

/-- Whitespace test used by the trimming model (the ASCII whitespace of Go TrimSpace). -/
def isSpaceChar (c : Char) : Bool :=
  decide (c = ' ') || decide (c = '\t') || decide (c = '\n') || decide (c = '\r')

/-- Model of Go strings.TrimSpace (and of the String.trim of the runtime):
drop whitespace from both ends. -/
def trimStr (s : String) : String :=
  ⟨(((s.data.dropWhile isSpaceChar).reverse.dropWhile isSpaceChar).reverse)⟩

/-- ASCII lower-casing of one character. -/
def toLowerChar (c : Char) : Char :=
  if 65 ≤ c.toNat ∧ c.toNat ≤ 90 then Char.ofNat (c.toNat + 32) else c

/-- Model of Go strings.ToLower (ASCII range). -/
def toLowerStr (s : String) : String := ⟨s.data.map toLowerChar⟩

/-- Split a string at commas (model of strings.Split with a comma separator). -/
def splitCommaAux : List Char → List Char → List String
  | [], acc => [⟨acc.reverse⟩]
  | c :: cs, acc =>
    if c = ',' then ⟨acc.reverse⟩ :: splitCommaAux cs []
    else splitCommaAux cs (c :: acc)

def splitComma (s : String) : List String := splitCommaAux s.data []

/-- Decimal digit value of a character, or none. -/
def parseDigit (c : Char) : Option Nat :=
  if 48 ≤ c.toNat ∧ c.toNat ≤ 57 then some (c.toNat - 48) else none

/-- Accumulating decimal parser over the digit characters. -/
def parseNatAux : List Char → Nat → Option Nat
  | [], acc => some acc
  | c :: cs, acc =>
    match parseDigit c with
    | some d => parseNatAux cs (acc * 10 + d)
    | none => none

/-! ### common/errors/errors.go -/

/-- AppError from common/errors: an application error with code and message.
The wrapped Go error value of the source is not modelled. -/
structure AppError where
  code : String
  message : String
  deriving DecidableEq, Repr

def ErrCodeInternal : String := "INTERNAL_ERROR"

def ErrCodeNotFound : String := "NOT_FOUND"

def ErrCodeBadRequest : String := "BAD_REQUEST"

def ErrCodeConflict : String := "CONFLICT"

def ErrCodeCircuitOpen : String := "CIRCUIT_OPEN"

def ErrCodeRateLimit : String := "RATE_LIMIT_EXCEEDED"

def ErrCodeServiceUnavail : String := "SERVICE_UNAVAILABLE"

def NewInternal (message : String) : AppError := ⟨ErrCodeInternal, message⟩

def NewNotFound (resource : String) : AppError := ⟨ErrCodeNotFound, resource ++ " not found"⟩

def NewBadRequest (message : String) : AppError := ⟨ErrCodeBadRequest, message⟩

def NewConflict (message : String) : AppError := ⟨ErrCodeConflict, message⟩

def NewCircuitOpen (service : String) : AppError :=
  ⟨ErrCodeCircuitOpen, "circuit breaker open for service: " ++ service⟩

def NewRateLimit : AppError := ⟨ErrCodeRateLimit, "rate limit exceeded, please try again later"⟩

/-! ### common/circuitbreaker (wrapper from the source) over the wrapped breaker state machine

The repository wraps the third-party gobreaker library; only the wrapper, its
configuration and its ReadyToTrip closure are in the source.  The state machine
itself is modelled from the specification (section 4.1): a tagged state
Closed / Open / HalfOpen with rolling-window counters, a rolling interval that
resets the Closed-state counters, an open timeout after which the next call is
let through in HalfOpen, and up to maxRequests trial calls in HalfOpen. -/

inductive CircuitState where
  | closed
  | opened
  | halfOpen
  deriving DecidableEq, Repr

/-- Counts of the wrapped breaker: rolling-window request / success / failure counters.
Modelled from the spec: BreakerCounters, reset on window boundaries and state transitions. -/
structure Counts where
  requests : Nat
  totalSuccesses : Nat
  totalFailures : Nat
  consecutiveSuccesses : Nat
  consecutiveFailures : Nat
  deriving DecidableEq, Repr

def Counts.clear : Counts := ⟨0, 0, 0, 0, 0⟩

def Counts.onRequest (c : Counts) : Counts := { c with requests := c.requests + 1 }

def Counts.onSuccess (c : Counts) : Counts :=
  { c with
    totalSuccesses := c.totalSuccesses + 1
    consecutiveSuccesses := c.consecutiveSuccesses + 1
    consecutiveFailures := 0 }

def Counts.onFailure (c : Counts) : Counts :=
  { c with
    totalFailures := c.totalFailures + 1
    consecutiveFailures := c.consecutiveFailures + 1
    consecutiveSuccesses := 0 }

/-- ReadyToTrip closure from common/circuitbreaker New: trip when at least 3 requests
were seen and the failure ratio is at least 0.5.  The float64 comparison
TotalFailures / Requests >= 0.5 is expressed exactly as Requests <= 2 * TotalFailures,
which agrees with the float computation throughout the uint32 range of the counters. -/
def readyToTrip (c : Counts) : Bool :=
  decide (3 ≤ c.requests) && decide (c.requests ≤ 2 * c.totalFailures)

/-- Config from common/circuitbreaker: MaxRequests (half-open trials), Interval
(rolling window, seconds), Timeout (open cooldown, seconds). -/
structure BreakerConfig where
  maxRequests : Nat
  interval : ℚ
  timeout : ℚ
  deriving DecidableEq, Repr

/-- DefaultConfig from common/circuitbreaker: 3 half-open requests, 60 s interval, 30 s timeout. -/
def DefaultBreakerConfig : BreakerConfig := ⟨3, 60, 30⟩

/-- CircuitBreaker state: the wrapper fields of the source plus the wrapped machine state
(modelled from the spec).  expiry is the end of the current rolling window while Closed,
or the end of the cooldown while Open; none means no pending expiry. -/
structure CircuitBreaker where
  serviceName : String
  maxRequests : Nat
  interval : ℚ
  timeout : ℚ
  state : CircuitState
  counts : Counts
  expiry : Option ℚ
  deriving DecidableEq, Repr

/-- Generation change of the wrapped breaker (modelled from the spec): counters reset
and the expiry is recomputed from the state just entered. -/
def CircuitBreaker.newGeneration (cb : CircuitBreaker) (now : ℚ) : CircuitBreaker :=
  { cb with
    counts := Counts.clear
    expiry :=
      match cb.state with
      | .closed => if cb.interval = 0 then none else some (now + cb.interval)
      | .opened => some (now + cb.timeout)
      | .halfOpen => none }

/-- State transition of the wrapped breaker (modelled from the spec): entering a state
resets the counters and restarts the relevant window or cooldown. -/
def CircuitBreaker.setState (cb : CircuitBreaker) (s : CircuitState) (now : ℚ) : CircuitBreaker :=
  if cb.state = s then cb else ({ cb with state := s }).newGeneration now

/-- Time-driven state refresh of the wrapped breaker (modelled from the spec): a Closed
breaker starts a fresh rolling window when the current one has expired, and an Open
breaker moves to HalfOpen once the open timeout has elapsed. -/
def CircuitBreaker.refresh (cb : CircuitBreaker) (now : ℚ) : CircuitBreaker :=
  match cb.state with
  | .closed =>
    match cb.expiry with
    | some e => if e ≤ now then cb.newGeneration now else cb
    | none => cb
  | .opened =>
    match cb.expiry with
    | some e => if e ≤ now then cb.setState .halfOpen now else cb
    | none => cb
  | .halfOpen => cb

/-- Success bookkeeping of the wrapped breaker (modelled from the spec): count the
success; in HalfOpen, close the breaker once all permitted trials have succeeded. -/
def CircuitBreaker.onSuccess (cb : CircuitBreaker) (now : ℚ) : CircuitBreaker :=
  match cb.state with
  | .closed => { cb with counts := cb.counts.onSuccess }
  | .halfOpen =>
    let cb1 := { cb with counts := cb.counts.onSuccess }
    if cb1.maxRequests ≤ cb1.counts.consecutiveSuccesses then cb1.setState .closed now else cb1
  | .opened => cb

/-- Failure bookkeeping of the wrapped breaker (modelled from the spec, with the
in-source ReadyToTrip closure): count the failure; trip Closed to Open when the
threshold is reached; any HalfOpen failure reopens the breaker. -/
def CircuitBreaker.onFailure (cb : CircuitBreaker) (now : ℚ) : CircuitBreaker :=
  match cb.state with
  | .closed =>
    let cb1 := { cb with counts := cb.counts.onFailure }
    if readyToTrip cb1.counts then cb1.setState .opened now else cb1
  | .halfOpen => cb.setState .opened now
  | .opened => cb

/-- GoErr models the Go error values flowing through the wrapper: application errors,
the too-many-requests sentinel of the wrapped breaker, and a cancelled context. -/
inductive GoErr where
  | app (e : AppError)
  | tooManyRequests
  | contextCanceled
  deriving DecidableEq, Repr

/-- ExecResult bundles what one Execute call produced: the returned value or error,
whether the wrapped operation was actually invoked, and the breaker afterwards. -/
structure ExecResult (α : Type) where
  result : Except GoErr α
  invoked : Bool
  breaker : CircuitBreaker
  deriving Repr

/-- Execute from common/circuitbreaker: run the operation under the wrapped breaker
(state machine modelled from the spec) and translate the open-state sentinel error
into the distinct dependency-unavailable AppError, exactly as the source wrapper does. -/
def CircuitBreaker.exec {α : Type} (cb : CircuitBreaker) (now : ℚ)
    (op : Except GoErr α) : ExecResult α :=
  let cb1 := cb.refresh now
  if cb1.state = .opened then
    ⟨.error (.app (NewCircuitOpen cb1.serviceName)), false, cb1⟩
  else if cb1.state = .halfOpen ∧ cb1.maxRequests ≤ cb1.counts.requests then
    ⟨.error .tooManyRequests, false, cb1⟩
  else
    let cb2 := { cb1 with counts := cb1.counts.onRequest }
    match op with
    | .ok v => ⟨.ok v, true, cb2.onSuccess now⟩
    | .error e => ⟨.error e, true, cb2.onFailure now⟩

/-- ExecuteWithContext from common/circuitbreaker: a select on the context before
executing; an already-cancelled context returns the context error immediately,
without consulting or updating the breaker. -/
def CircuitBreaker.execWithContext {α : Type} (cb : CircuitBreaker) (ctxCanceled : Bool)
    (now : ℚ) (op : Except GoErr α) : ExecResult α :=
  if ctxCanceled then ⟨.error .contextCanceled, false, cb⟩ else cb.exec now op

/-- New from common/circuitbreaker: a Closed breaker with cleared counters whose first
rolling window starts at creation time. -/
def CircuitBreaker.make (serviceName : String) (config : BreakerConfig) (now : ℚ) :
    CircuitBreaker :=
  { serviceName := serviceName
    maxRequests := config.maxRequests
    interval := config.interval
    timeout := config.timeout
    state := .closed
    counts := Counts.clear
    expiry := if config.interval = 0 then none else some (now + config.interval) }

/-- StateAsFloat from common/circuitbreaker: 0 closed, 1 half-open, 2 open. -/
def CircuitBreaker.stateAsFloat (cb : CircuitBreaker) : ℚ :=
  match cb.state with
  | .closed => 0
  | .halfOpen => 1
  | .opened => 2

/-! ### Order-service user client (internal/client/user_client.go) -/

/-- User from the order-service model: user data returned by the user service. -/
structure User where
  id : Nat
  email : String
  name : String
  age : Int
  status : String
  deriving DecidableEq, Repr

/-- ErrorInfo of the user-service response envelope. -/
structure ErrorInfo where
  code : String
  message : String
  deriving DecidableEq, Repr

/-- UserResponse envelope returned by the user service. -/
structure UserResponse where
  success : Bool
  data : Option User
  err : Option ErrorInfo
  deriving DecidableEq, Repr

/-- HTTPResult abstracts the outcome of the underlying HTTP GET: a transport error,
or a response with a status code and a decoded body (none models a body that fails
to decode as JSON). -/
inductive HTTPResult where
  | transportError
  | response (status : Nat) (body : Option UserResponse)
  deriving DecidableEq, Repr

/-- doGetRequest from the order-service user client: transport errors become internal
errors, a 404 becomes the domain not-found error, other non-200 statuses become
service-unavailable errors, an undecodable body becomes an internal error, and a
non-success envelope is surfaced with the envelope error code. -/
def doGetRequest (r : HTTPResult) : Except GoErr (Option User) :=
  match r with
  | .transportError => .error (.app (NewInternal "failed to call user service"))
  | .response status body =>
    if status ≠ 200 then
      if status = 404 then .error (.app (NewNotFound "user"))
      else .error (.app ⟨ErrCodeServiceUnavail,
        "user service returned status " ++ natStr status⟩)
    else
      match body with
      | none => .error (.app (NewInternal "failed to decode response"))
      | some resp =>
        if resp.success = false then
          .error (.app ⟨(resp.err.map ErrorInfo.code).getD "",
            (resp.err.map ErrorInfo.message).getD ""⟩)
        else .ok resp.data

/-- GetUser from the order-service user client: the GET wrapped by ExecuteWithContext. -/
def UserClient.getUser (cb : CircuitBreaker) (ctxCanceled : Bool) (now : ℚ)
    (r : HTTPResult) : ExecResult (Option User) :=
  cb.execWithContext ctxCanceled now (doGetRequest r)

/-! ### common/middleware rate limiter (the in-source wrapper) over x/time/rate

Only the per-key table, the middleware and the cleanup are in the source; the
token bucket itself comes from golang.org/x/time/rate and is modelled from the
specification (section 4.2): a bucket holds up to burst tokens, refills
continuously at limit tokens per second, and Allow consumes one token when at
least one is available, without blocking. -/

/-- Limiter models one x/time/rate token bucket (modelled from the spec):
rate, burst capacity, current tokens and the time of the last refill. -/
structure Limiter where
  limit : ℚ
  burst : Nat
  tokens : ℚ
  last : ℚ
  deriving DecidableEq, Repr

/-- Continuous refill (modelled from the spec): add elapsed times rate tokens,
capped at the burst capacity. -/
def Limiter.advance (l : Limiter) (now : ℚ) : ℚ :=
  min (l.burst : ℚ) (l.tokens + (now - l.last) * l.limit)

/-- Allow (modelled from the spec): refill, then consume one token if at least one
is available; never blocks. -/
def Limiter.allow (l : Limiter) (now : ℚ) : Bool × Limiter :=
  let t := l.advance now
  if 1 ≤ t then (true, { l with tokens := t - 1, last := now })
  else (false, { l with tokens := t, last := now })

/-- RateLimiter from common/middleware: the key-to-bucket table plus the configured
rate and burst used when a new key is first seen. -/
structure RateLimiter where
  limiters : List (String × Limiter)
  limit : ℚ
  burst : Nat
  deriving DecidableEq, Repr

/-- NewRateLimiter from common/middleware: an empty table with the given
requests-per-second rate and burst size. -/
def NewRateLimiter (requestsPerSecond : Nat) (burst : Nat) : RateLimiter :=
  ⟨[], (requestsPerSecond : ℚ), burst⟩

/-- getLimiter from common/middleware: look up the bucket of a key, creating a full
bucket on first sight (x/time/rate hands out a full bucket on first use). -/
def RateLimiter.getLimiter (rl : RateLimiter) (key : String) (now : ℚ) :
    Limiter × RateLimiter :=
  match rl.limiters.lookup key with
  | some l => (l, rl)
  | none =>
    let l : Limiter := ⟨rl.limit, rl.burst, (rl.burst : ℚ), now⟩
    (l, { rl with limiters := setEntry rl.limiters key l })

/-- Middleware from common/middleware: admit the request when the bucket of the
client IP allows it, otherwise abort with the rate-limit error. -/
def RateLimiter.middlewareStep (rl : RateLimiter) (clientIP : String) (now : ℚ) :
    Option AppError × RateLimiter :=
  let (l, rl1) := rl.getLimiter clientIP now
  let (ok, l1) := l.allow now
  let rl2 := { rl1 with limiters := setEntry rl1.limiters clientIP l1 }
  if ok then (none, rl2) else (some NewRateLimit, rl2)

/-- Sequence of middleware admission outcomes (true means admitted) for a list of
requests given as client IP and arrival time. -/
def RateLimiter.run (rl : RateLimiter) : List (String × ℚ) → List Bool
  | [] => []
  | (k, t) :: rest =>
    let s := rl.middlewareStep k t
    s.fst.isNone :: s.snd.run rest

/-- CleanupStaleEntries from common/middleware: drop every bucket whose token count
equals the configured burst, meaning the key has been idle since the last refill. -/
def RateLimiter.cleanupStaleEntries (rl : RateLimiter) : RateLimiter :=
  { rl with limiters := rl.limiters.filter (fun kv => kv.snd.tokens ≠ (rl.burst : ℚ)) }

/-! ### Entity models of the order and repository services -/

/-- OrderStatus constants of the order model. -/
def OrderStatusPending : String := "pending"

def OrderStatusConfirmed : String := "confirmed"

def OrderStatusShipped : String := "shipped"

def OrderStatusDelivered : String := "delivered"

def OrderStatusCancelled : String := "cancelled"

/-- Record-status constants of the order model. -/
def OrderRecordStatusActive : String := "active"

def OrderRecordStatusDeleted : String := "deleted"

/-- Order from the order-service model.  float64 TotalPrice is modelled as ℚ and the
time.Time timestamps as rational seconds; both are only stored and copied here. -/
structure Order where
  id : Nat
  userId : Nat
  productId : String
  quantity : Int
  totalPrice : ℚ
  orderStatus : String
  status : String
  createdBy : String
  updatedBy : String
  createdAt : ℚ
  updatedAt : ℚ
  deriving DecidableEq, Repr

/-- OrderWithUser from the order-service model: an order together with the optional
user data fetched from the user service. -/
structure OrderWithUser where
  order : Order
  user : Option User
  deriving DecidableEq, Repr

/-- CreateOrderRequest from the order-service model. -/
structure CreateOrderRequest where
  userId : Nat
  productId : String
  quantity : Int
  totalPrice : ℚ
  deriving DecidableEq, Repr

/-- UpdateOrderRequest from the order-service model: only the order status can change. -/
structure UpdateOrderRequest where
  orderStatus : Option String
  deriving DecidableEq, Repr

/-- ListOrdersQuery from the order-service model. -/
structure ListOrdersQuery where
  page : Int
  pageSize : Int
  userId : Option Nat
  orderStatus : Option String
  status : Option String
  productId : String
  deriving DecidableEq, Repr

/-- ApplyDefaults of ListOrdersQuery: page defaults to 1 and page size to 10. -/
def ListOrdersQuery.applyDefaults (q : ListOrdersQuery) : ListOrdersQuery :=
  { q with
    page := if q.page ≤ 0 then 1 else q.page
    pageSize := if q.pageSize ≤ 0 then 10 else q.pageSize }

/-- Repository-status constants of the repository model. -/
def RepositoryStatusActive : String := "active"

def RepositoryStatusInactive : String := "inactive"

def RepositoryStatusDeleted : String := "deleted"

/-- Repository from the repository-service model. -/
structure Repository where
  id : Nat
  name : String
  description : String
  ownerId : Nat
  visibility : String
  url : String
  status : String
  createdBy : String
  updatedBy : String
  createdAt : ℚ
  updatedAt : ℚ
  deriving DecidableEq, Repr

/-- CreateRepositoryRequest from the repository-service model. -/
structure CreateRepositoryRequest where
  name : String
  description : String
  ownerId : Nat
  visibility : String
  url : String
  deriving DecidableEq, Repr

/-- UpdateRepositoryRequest from the repository-service model. -/
structure UpdateRepositoryRequest where
  name : Option String
  description : Option String
  visibility : Option String
  url : Option String
  status : Option String
  deriving DecidableEq, Repr

/-- ListRepositoriesQuery from the repository-service model. -/
structure ListRepositoriesQuery where
  page : Int
  pageSize : Int
  search : String
  ownerId : Option Nat
  visibility : String
  status : Option String
  deriving DecidableEq, Repr

/-- ApplyDefaults of ListRepositoriesQuery: page defaults to 1 and page size to 10. -/
def ListRepositoriesQuery.applyDefaults (q : ListRepositoriesQuery) : ListRepositoriesQuery :=
  { q with
    page := if q.page ≤ 0 then 1 else q.page
    pageSize := if q.pageSize ≤ 0 then 10 else q.pageSize }

/-! ### List-cache fingerprint keys (order_service.go and repository service) -/

/-- Normalized field strings of an order list query, exactly the values the source
interpolates into the fingerprint: absent user becomes any, absent order status
becomes all, absent record status becomes any, and the trimmed product defaults
to all when empty. -/
structure OrderKeyFields where
  page : Int
  pageSize : Int
  user : String
  orderStatus : String
  recordStatus : String
  product : String
  deriving DecidableEq, Repr

def orderNormalFields (q : ListOrdersQuery) : OrderKeyFields :=
  { page := q.page
    pageSize := q.pageSize
    user := match q.userId with | some u => natStr u | none => "any"
    orderStatus := match q.orderStatus with | some s => s | none => "all"
    recordStatus := match q.status with | some s => s | none => "any"
    product := if trimStr q.productId = "" then "all" else trimStr q.productId }

def orderKeyOfFields (f : OrderKeyFields) : String :=
  "orders:list:p" ++ intStr f.page ++ ":ps" ++ intStr f.pageSize ++ ":user:" ++ f.user ++
    ":order_status:" ++ f.orderStatus ++ ":record_status:" ++ f.recordStatus ++
    ":product:" ++ f.product

/-- orderListCacheKey from order_service.go: the deterministic fingerprint of a
normalized order list query.  TrimSpace is modelled by trimStr. -/
def orderListCacheKey (q : ListOrdersQuery) : String :=
  orderKeyOfFields (orderNormalFields q)

/-- Normalized field strings of a repository list query, exactly the values the source
interpolates into the fingerprint: the trimmed search defaults to all when empty,
empty visibility becomes all, absent status becomes any, absent owner becomes any. -/
structure RepoKeyFields where
  page : Int
  pageSize : Int
  search : String
  owner : String
  visibility : String
  status : String
  deriving DecidableEq, Repr

def repoNormalFields (q : ListRepositoriesQuery) : RepoKeyFields :=
  { page := q.page
    pageSize := q.pageSize
    search := if trimStr q.search = "" then "all" else trimStr q.search
    owner := match q.ownerId with | some u => natStr u | none => "any"
    visibility := if q.visibility = "" then "all" else q.visibility
    status := match q.status with | some s => s | none => "any" }

def repoKeyOfFields (f : RepoKeyFields) : String :=
  "repositories:list:p" ++ intStr f.page ++ ":ps" ++ intStr f.pageSize ++ ":search:" ++
    f.search ++ ":owner:" ++ f.owner ++ ":visibility:" ++ f.visibility ++ ":status:" ++ f.status

/-- repositoryListCacheKey from the repository service: the deterministic fingerprint
of a normalized repository list query.  TrimSpace is modelled by trimStr. -/
def repositoryListCacheKey (q : ListRepositoriesQuery) : String :=
  repoKeyOfFields (repoNormalFields q)

/-! ### Cache-aside layer

The common/cache redis client is not part of the repository source; it is
modelled from the specification (section 4.3): a key-value store with an
enabled flag, an optional TTL per entry (0 means no expiry), and a degraded
mode in which every backend operation fails.  healthy = false models a
disabled or unreachable backend whose operations all return errors. -/

/-- CachePayload models the JSON documents the services store in the cache. -/
inductive CachePayload where
  | orderEntry (o : OrderWithUser)
  | orderList (orders : List Order) (total : Int)
  | repoEntry (r : Repository)
  | repoList (repos : List Repository) (total : Int)
  deriving DecidableEq, Repr

/-- CacheRecord is a stored value together with its TTL in seconds (0 means no expiry). -/
structure CacheRecord where
  value : CachePayload
  ttl : ℚ
  deriving DecidableEq, Repr

/-- Cache models the common/cache client (modelled from the spec): the enabled flag
of the configuration, backend health, and the backend key-value store. -/
structure Cache where
  enabled : Bool
  healthy : Bool
  entries : List (String × CacheRecord)
  deriving DecidableEq, Repr

/-- GetJSON (modelled from the spec): a backend failure is an error, an absent key is
a found = false result, a present key returns its payload. -/
def Cache.getJSON (c : Cache) (key : String) : Except Unit (Option CachePayload) :=
  if c.healthy then
    .ok (match c.entries.lookup key with
      | some r => some r.value
      | none => none)
  else .error ()

/-- SetJSON (modelled from the spec): store the payload under the key with the given
TTL, or fail when the backend is unreachable. -/
def Cache.setJSON (c : Cache) (key : String) (v : CachePayload) (ttl : ℚ) : Except Unit Cache :=
  if c.healthy then .ok { c with entries := setEntry c.entries key ⟨v, ttl⟩ }
  else .error ()

/-- Delete (modelled from the spec): remove the key, or fail when the backend is
unreachable. -/
def Cache.deleteKey (c : Cache) (key : String) : Except Unit Cache :=
  if c.healthy then .ok { c with entries := removeEntry c.entries key }
  else .error ()

/-! ### Order-service data access (internal/repository/order_repository.go)

The gorm database is modelled as the list of order rows; database transport
errors are not modelled, so FindByID can only miss (the record-not-found case
of the source). -/

/-- FindByID: primary-key lookup filtered to rows whose status is not deleted. -/
def findOrderByID (orders : List Order) (id : Nat) : Option Order :=
  orders.find? (fun o => decide (o.id = id) && decide (o.status ≠ OrderRecordStatusDeleted))

/-- Fresh primary key for a created row (gorm auto-increment). -/
def nextOrderId (orders : List Order) : Nat :=
  (orders.map Order.id).foldr max 0 + 1

/-- Create: insert the row, assigning a fresh id when none is set. -/
def createOrderDB (orders : List Order) (o : Order) : List Order × Order :=
  let o1 := if o.id = 0 then { o with id := nextOrderId orders } else o
  (orders ++ [o1], o1)

/-- Update (gorm Save): replace the row with the same primary key. -/
def saveOrderDB (orders : List Order) (o : Order) : List Order :=
  orders.map (fun x => if x.id = o.id then o else x)

/-- Delete: status-based soft delete, stamping updated_by and updated_at. -/
def softDeleteOrderDB (orders : List Order) (id : Nat) (updatedBy : String) (now : ℚ) :
    List Order :=
  let ub := if updatedBy = "" then "system" else updatedBy
  orders.map (fun x =>
    if x.id = id then { x with status := OrderRecordStatusDeleted, updatedBy := ub, updatedAt := now }
    else x)

/-- Filter of the List query: user, order status and product filters when present, and
the record-status filter defaulting to excluding deleted rows. -/
def orderMatchesQuery (q : ListOrdersQuery) (o : Order) : Bool :=
  (match q.userId with | some u => decide (o.userId = u) | none => true) &&
  (match q.orderStatus with | some s => decide (o.orderStatus = s) | none => true) &&
  (if q.productId = "" then true else decide (o.productId = q.productId)) &&
  (match q.status with
    | some s => decide (o.status = s)
    | none => decide (o.status ≠ OrderRecordStatusDeleted))

/-- Insertion step for sorting rows by descending key. -/
def insertByKeyDesc {α : Type} (key : α → ℚ) (o : α) : List α → List α
  | [] => [o]
  | x :: xs => if key x ≤ key o then o :: x :: xs else x :: insertByKeyDesc key o xs

/-- Sort rows by descending key (order by created_at DESC). -/
def sortByKeyDesc {α : Type} (key : α → ℚ) (l : List α) : List α :=
  l.foldr (insertByKeyDesc key) []

/-- List: filter, count, order by created_at descending, and paginate. -/
def listOrdersDB (orders : List Order) (q : ListOrdersQuery) : List Order × Int :=
  let filtered := orders.filter (orderMatchesQuery q)
  let total : Int := filtered.length
  let page := ((sortByKeyDesc Order.createdAt filtered).drop ((q.page - 1) * q.pageSize).toNat).take
    q.pageSize.toNat
  (page, total)

/-! ### Order-service business logic (internal/service/order_service.go) -/

/-- OrderServiceState: the database rows and the optional cache client (none models a
nil cache handed to NewOrderService). -/
structure OrderServiceState where
  repo : List Order
  cache : Option Cache
  deriving DecidableEq, Repr

/-- cacheGetOrder from order_service.go: nil or disabled cache, backend errors, absent
keys and undecodable payloads are all cache misses. -/
def cacheGetOrder (cache : Option Cache) (id : Nat) : Option OrderWithUser :=
  match cache with
  | none => none
  | some c =>
    if !c.enabled then none
    else
      match c.getJSON ("order:" ++ natStr id) with
      | .error _ => none
      | .ok none => none
      | .ok (some (.orderEntry o)) => some o
      | .ok (some _) => none

/-- cacheSetOrder from order_service.go: write the entity entry with no expiry;
nil cache, disabled cache and nil order are no-ops, and backend errors are ignored. -/
def cacheSetOrder (cache : Option Cache) (o : Option OrderWithUser) : Option Cache :=
  match cache, o with
  | none, _ => none
  | some c, none => some c
  | some c, some ow =>
    if !c.enabled then some c
    else
      match c.setJSON ("order:" ++ natStr ow.order.id) (.orderEntry ow) 0 with
      | .ok c1 => some c1
      | .error _ => some c

/-- cacheDeleteOrder from order_service.go: delete the entity entry; nil and disabled
caches are no-ops, and backend errors are ignored. -/
def cacheDeleteOrder (cache : Option Cache) (id : Nat) : Option Cache :=
  match cache with
  | none => none
  | some c =>
    if !c.enabled then some c
    else
      match c.deleteKey ("order:" ++ natStr id) with
      | .ok c1 => some c1
      | .error _ => some c

/-- cacheGetOrderList from order_service.go: fingerprint lookup with every failure
treated as a miss. -/
def cacheGetOrderList (cache : Option Cache) (q : ListOrdersQuery) :
    Option (List Order × Int) :=
  match cache with
  | none => none
  | some c =>
    if !c.enabled then none
    else
      match c.getJSON (orderListCacheKey q) with
      | .error _ => none
      | .ok none => none
      | .ok (some (.orderList orders total)) => some (orders, total)
      | .ok (some _) => none

/-- cacheSetOrderList from order_service.go: write the list payload under the
fingerprint with a 60 second TTL; failures are ignored. -/
def cacheSetOrderList (cache : Option Cache) (q : ListOrdersQuery) (orders : List Order)
    (total : Int) : Option Cache :=
  match cache with
  | none => none
  | some c =>
    if !c.enabled then some c
    else
      match c.setJSON (orderListCacheKey q) (.orderList orders total) 60 with
      | .ok c1 => some c1
      | .error _ => some c

/-- GetOrder from order_service.go: serve from the cache when possible, otherwise read
the row, attach the user data when the user-service call succeeded (and nil user data
on any error, the graceful degradation of the source), and populate the cache with no
expiry.  userResult is the outcome of the circuit-breaker protected GetUser call. -/
def GetOrder (s : OrderServiceState) (id : Nat) (userResult : Except GoErr (Option User)) :
    Except GoErr OrderWithUser × OrderServiceState :=
  match cacheGetOrder s.cache id with
  | some cached => (.ok cached, s)
  | none =>
    match findOrderByID s.repo id with
    | none => (.error (.app (NewNotFound "order")), s)
    | some order =>
      let user : Option User := match userResult with | .ok u => u | .error _ => none
      let result : OrderWithUser := ⟨order, user⟩
      (.ok result, { s with cache := cacheSetOrder s.cache (some result) })

/-- UpdateOrder from order_service.go: read the row, apply the requested order status,
stamp the actor, save, and delete the entity cache entry. -/
def UpdateOrder (s : OrderServiceState) (id : Nat) (req : UpdateOrderRequest)
    (actor : String) : Except GoErr Order × OrderServiceState :=
  match findOrderByID s.repo id with
  | none => (.error (.app (NewNotFound "order")), s)
  | some order =>
    let order1 := match req.orderStatus with
      | some st => { order with orderStatus := st }
      | none => order
    let actor1 := if actor = "" then "system" else actor
    let order2 := { order1 with updatedBy := actor1 }
    let s1 : OrderServiceState := { s with repo := saveOrderDB s.repo order2 }
    (.ok order2, { s1 with cache := cacheDeleteOrder s1.cache id })

/-- DeleteOrder from order_service.go: check existence, soft delete, and delete the
entity cache entry. -/
def DeleteOrder (s : OrderServiceState) (id : Nat) (actor : String) (now : ℚ) :
    Option GoErr × OrderServiceState :=
  match findOrderByID s.repo id with
  | none => (some (.app (NewNotFound "order")), s)
  | some _ =>
    let actor1 := if actor = "" then "system" else actor
    let s1 : OrderServiceState := { s with repo := softDeleteOrderDB s.repo id actor1 now }
    (none, { s1 with cache := cacheDeleteOrder s1.cache id })

/-- ListOrders from order_service.go: apply defaults, serve the fingerprint entry when
possible, otherwise query the database and populate the list cache with its TTL. -/
def ListOrders (s : OrderServiceState) (q : ListOrdersQuery) :
    Except GoErr (List Order × Int) × OrderServiceState :=
  let q1 := q.applyDefaults
  match cacheGetOrderList s.cache q1 with
  | some cached => (.ok cached, s)
  | none =>
    let r := listOrdersDB s.repo q1
    (.ok r, { s with cache := cacheSetOrderList s.cache q1 r.fst r.snd })

/-- CreateOrder from order_service.go: validate the user through the breaker-protected
client; on a circuit-open or service-unavailable error create the order without user
data (graceful degradation); on any other error fail; otherwise require an active
user, create the order, and cache the entity.  The source would dereference a nil
user pointer when a successful envelope carries no user; that branch is modelled as
an internal error and no theorem depends on it. -/
def CreateOrder (s : OrderServiceState) (req : CreateOrderRequest) (actor : String)
    (userResult : Except GoErr (Option User)) (now : ℚ) :
    Except GoErr OrderWithUser × OrderServiceState :=
  let actor1 := if actor = "" then "system" else actor
  let newOrder : Order :=
    { id := 0
      userId := req.userId
      productId := req.productId
      quantity := req.quantity
      totalPrice := req.totalPrice
      orderStatus := OrderStatusPending
      status := OrderRecordStatusActive
      createdBy := actor1
      updatedBy := actor1
      createdAt := now
      updatedAt := now }
  match userResult with
  | .error e =>
    match e with
    | .app ae =>
      if ae.code = ErrCodeCircuitOpen ∨ ae.code = ErrCodeServiceUnavail then
        let (rows, created) := createOrderDB s.repo newOrder
        let result : OrderWithUser := ⟨created, none⟩
        let s1 : OrderServiceState := { s with repo := rows }
        (.ok result, { s1 with cache := cacheSetOrder s1.cache (some result) })
      else (.error (.app ae), s)
    | other => (.error other, s)
  | .ok none => (.error (.app (NewInternal "nil user in successful response")), s)
  | .ok (some u) =>
    if u.status ≠ "active" then (.error (.app (NewBadRequest "user is not active")), s)
    else
      let (rows, created) := createOrderDB s.repo newOrder
      let result : OrderWithUser := ⟨created, some u⟩
      let s1 : OrderServiceState := { s with repo := rows }
      (.ok result, { s1 with cache := cacheSetOrder s1.cache (some result) })

/-! ### Repository-service data access (internal/repository/repository_repository.go) -/

/-- FindByID: primary-key lookup filtered to rows whose status is not deleted. -/
def findRepoByID (repos : List Repository) (id : Nat) : Option Repository :=
  repos.find? (fun r => decide (r.id = id) && decide (r.status ≠ RepositoryStatusDeleted))

/-- FindByName: name lookup filtered to rows whose status is not deleted. -/
def findRepoByName (repos : List Repository) (name : String) : Option Repository :=
  repos.find? (fun r => decide (r.name = name) && decide (r.status ≠ RepositoryStatusDeleted))

/-- Fresh primary key for a created row (gorm auto-increment). -/
def nextRepoId (repos : List Repository) : Nat :=
  (repos.map Repository.id).foldr max 0 + 1

/-- Create: insert the row, assigning a fresh id when none is set. -/
def createRepoDB (repos : List Repository) (r : Repository) : List Repository × Repository :=
  let r1 := if r.id = 0 then { r with id := nextRepoId repos } else r
  (repos ++ [r1], r1)

/-- Update (gorm Save): replace the row with the same primary key. -/
def saveRepoDB (repos : List Repository) (r : Repository) : List Repository :=
  repos.map (fun x => if x.id = r.id then r else x)

/-- Delete: status-based soft delete, stamping updated_by and updated_at. -/
def softDeleteRepoDB (repos : List Repository) (id : Nat) (updatedBy : String) (now : ℚ) :
    List Repository :=
  let ub := if updatedBy = "" then "system" else updatedBy
  repos.map (fun x =>
    if x.id = id then { x with status := RepositoryStatusDeleted, updatedBy := ub, updatedAt := now }
    else x)

/-- Prefix test on character lists. -/
def isPrefixList : List Char → List Char → Bool
  | [], _ => true
  | _ :: _, [] => false
  | a :: as, b :: bs => decide (a = b) && isPrefixList as bs

/-- Infix test on character lists. -/
def isInfixList (p : List Char) : List Char → Bool
  | [] => isPrefixList p []
  | c :: rest => isPrefixList p (c :: rest) || isInfixList p rest

/-- Case-insensitive substring match (model of SQL ILIKE with surrounding wildcards). -/
def ilike (s pattern : String) : Bool :=
  isInfixList (toLowerStr pattern).data (toLowerStr s).data

/-- Filter of the List query: search over name and description, owner and visibility
filters when present, and the record-status filter defaulting to excluding deleted rows. -/
def repoMatchesQuery (q : ListRepositoriesQuery) (r : Repository) : Bool :=
  (if q.search = "" then true else ilike r.name q.search || ilike r.description q.search) &&
  (match q.ownerId with | some u => decide (r.ownerId = u) | none => true) &&
  (if q.visibility = "" then true else decide (r.visibility = q.visibility)) &&
  (match q.status with
    | some s => decide (r.status = s)
    | none => decide (r.status ≠ RepositoryStatusDeleted))

/-- List: filter, count, order by created_at descending, and paginate. -/
def listReposDB (repos : List Repository) (q : ListRepositoriesQuery) :
    List Repository × Int :=
  let filtered := repos.filter (repoMatchesQuery q)
  let total : Int := filtered.length
  let page := ((sortByKeyDesc Repository.createdAt filtered).drop
    ((q.page - 1) * q.pageSize).toNat).take q.pageSize.toNat
  (page, total)

/-! ### Repository-service business logic (internal/service/repository_service.go) -/

/-- RepoServiceState: the database rows and the optional cache client. -/
structure RepoServiceState where
  repo : List Repository
  cache : Option Cache
  deriving DecidableEq, Repr

/-- cacheGetRepository from the repository service: every failure is a miss. -/
def cacheGetRepository (cache : Option Cache) (id : Nat) : Option Repository :=
  match cache with
  | none => none
  | some c =>
    if !c.enabled then none
    else
      match c.getJSON ("repository:" ++ natStr id) with
      | .error _ => none
      | .ok none => none
      | .ok (some (.repoEntry r)) => some r
      | .ok (some _) => none

/-- cacheSetRepository from the repository service: write the entity entry with no
expiry; nil cache, disabled cache and nil repo are no-ops, and errors are ignored. -/
def cacheSetRepository (cache : Option Cache) (r : Option Repository) : Option Cache :=
  match cache, r with
  | none, _ => none
  | some c, none => some c
  | some c, some repo =>
    if !c.enabled then some c
    else
      match c.setJSON ("repository:" ++ natStr repo.id) (.repoEntry repo) 0 with
      | .ok c1 => some c1
      | .error _ => some c

/-- cacheDeleteRepository from the repository service: delete the entity entry;
failures are ignored. -/
def cacheDeleteRepository (cache : Option Cache) (id : Nat) : Option Cache :=
  match cache with
  | none => none
  | some c =>
    if !c.enabled then some c
    else
      match c.deleteKey ("repository:" ++ natStr id) with
      | .ok c1 => some c1
      | .error _ => some c

/-- cacheGetRepositoryList from the repository service: fingerprint lookup with every
failure treated as a miss. -/
def cacheGetRepositoryList (cache : Option Cache) (q : ListRepositoriesQuery) :
    Option (List Repository × Int) :=
  match cache with
  | none => none
  | some c =>
    if !c.enabled then none
    else
      match c.getJSON (repositoryListCacheKey q) with
      | .error _ => none
      | .ok none => none
      | .ok (some (.repoList repos total)) => some (repos, total)
      | .ok (some _) => none

/-- cacheSetRepositoryList from the repository service: write the list payload under
the fingerprint with a 60 second TTL; failures are ignored. -/
def cacheSetRepositoryList (cache : Option Cache) (q : ListRepositoriesQuery)
    (repos : List Repository) (total : Int) : Option Cache :=
  match cache with
  | none => none
  | some c =>
    if !c.enabled then some c
    else
      match c.setJSON (repositoryListCacheKey q) (.repoList repos total) 60 with
      | .ok c1 => some c1
      | .error _ => some c

/-- GetRepository from the repository service: cache first, then the database, then
populate the cache with no expiry. -/
def GetRepository (s : RepoServiceState) (id : Nat) :
    Except GoErr Repository × RepoServiceState :=
  match cacheGetRepository s.cache id with
  | some cached => (.ok cached, s)
  | none =>
    match findRepoByID s.repo id with
    | none => (.error (.app (NewNotFound "repository")), s)
    | some repo => (.ok repo, { s with cache := cacheSetRepository s.cache (some repo) })

/-- CreateRepository from the repository service: reject duplicate names, default the
visibility to private, create, and cache the entity. -/
def CreateRepository (s : RepoServiceState) (req : CreateRepositoryRequest)
    (actor : String) (now : ℚ) : Except GoErr Repository × RepoServiceState :=
  match findRepoByName s.repo req.name with
  | some _ => (.error (.app (NewConflict "repository name already exists")), s)
  | none =>
    let visibility := if req.visibility = "" then "private" else req.visibility
    let actor1 := if actor = "" then "system" else actor
    let newRepo : Repository :=
      { id := 0
        name := req.name
        description := req.description
        ownerId := req.ownerId
        visibility := visibility
        url := req.url
        status := RepositoryStatusActive
        createdBy := actor1
        updatedBy := actor1
        createdAt := now
        updatedAt := now }
    let (rows, created) := createRepoDB s.repo newRepo
    let s1 : RepoServiceState := { s with repo := rows }
    (.ok created, { s1 with cache := cacheSetRepository s1.cache (some created) })

/-- UpdateRepository from the repository service: read the row, reject a conflicting
new name, apply the requested fields, stamp the actor, save, and refresh the entity
cache entry with the updated value. -/
def UpdateRepository (s : RepoServiceState) (id : Nat) (req : UpdateRepositoryRequest)
    (actor : String) : Except GoErr Repository × RepoServiceState :=
  match findRepoByID s.repo id with
  | none => (.error (.app (NewNotFound "repository")), s)
  | some repo =>
    let conflict : Bool :=
      match req.name with
      | some n => if n ≠ repo.name then (findRepoByName s.repo n).isSome else false
      | none => false
    if conflict then (.error (.app (NewConflict "repository name already exists")), s)
    else
      let repo1 := match req.name with
        | some n => if n = repo.name then repo else { repo with name := n }
        | none => repo
      let repo2 := match req.description with
        | some d => { repo1 with description := d }
        | none => repo1
      let repo3 := match req.visibility with
        | some v => { repo2 with visibility := v }
        | none => repo2
      let repo4 := match req.url with
        | some u => { repo3 with url := u }
        | none => repo3
      let repo5 := match req.status with
        | some st => { repo4 with status := st }
        | none => repo4
      let actor1 := if actor = "" then "system" else actor
      let repo6 := { repo5 with updatedBy := actor1 }
      let s1 : RepoServiceState := { s with repo := saveRepoDB s.repo repo6 }
      (.ok repo6, { s1 with cache := cacheSetRepository s1.cache (some repo6) })

/-- DeleteRepository from the repository service: check existence, soft delete, and
delete the entity cache entry. -/
def DeleteRepository (s : RepoServiceState) (id : Nat) (actor : String) (now : ℚ) :
    Option GoErr × RepoServiceState :=
  match findRepoByID s.repo id with
  | none => (some (.app (NewNotFound "repository")), s)
  | some _ =>
    let actor1 := if actor = "" then "system" else actor
    let s1 : RepoServiceState := { s with repo := softDeleteRepoDB s.repo id actor1 now }
    (none, { s1 with cache := cacheDeleteRepository s1.cache id })

/-- ListRepositories from the repository service: apply defaults, serve the
fingerprint entry when possible, otherwise query the database and populate the
list cache with its TTL. -/
def ListRepositories (s : RepoServiceState) (q : ListRepositoriesQuery) :
    Except GoErr (List Repository × Int) × RepoServiceState :=
  let q1 := q.applyDefaults
  match cacheGetRepositoryList s.cache q1 with
  | some cached => (.ok cached, s)
  | none =>
    let r := listReposDB s.repo q1
    (.ok r, { s with cache := cacheSetRepositoryList s.cache q1 r.fst r.snd })

/-! ### Order-service configuration (internal/config/config.go) -/

/-- Env models the process environment; os.Getenv yields the empty string for unset keys. -/
structure Env where
  get : String → String

/-- getEnv from config.go: fall back to the default when the variable is empty or unset. -/
def getEnv (env : Env) (key defaultValue : String) : String :=
  if env.get key = "" then defaultValue else env.get key

/-- getEnvBool from config.go: recognised true and false spellings, anything else
(including the empty string) yields the default. -/
def getEnvBool (env : Env) (key : String) (defaultValue : Bool) : Bool :=
  let value := toLowerStr (trimStr (env.get key))
  if value = "" then defaultValue
  else if value = "1" ∨ value = "true" ∨ value = "yes" ∨ value = "y" ∨ value = "on" then true
  else if value = "0" ∨ value = "false" ∨ value = "no" ∨ value = "n" ∨ value = "off" then false
  else defaultValue

/-- getEnvList from config.go: comma-separated values, trimmed, empty items dropped,
with the default when nothing remains. -/
def getEnvList (env : Env) (key : String) (defaultValues : List String) : List String :=
  let value := env.get key
  if value = "" then defaultValues
  else
    let parts := (splitComma value).map trimStr
    let result := parts.filter (fun t => t ≠ "")
    if result = [] then defaultValues else result

/-- Model of strconv.Atoi: an optional sign followed by at least one digit; none on
any parse failure.  The 64-bit overflow rejection of the Go function is not modelled. -/
def atoi (s : String) : Option Int :=
  match s.data with
  | [] => none
  | '-' :: rest =>
    match rest with
    | [] => none
    | _ => (parseNatAux rest 0).map (fun n => -(n : Int))
  | '+' :: rest =>
    match rest with
    | [] => none
    | _ => (parseNatAux rest 0).map (fun n => (n : Int))
  | l => (parseNatAux l 0).map (fun n => (n : Int))

/-- Model of strconv.ParseUint with bit size 32: digits only, bounded by 2 to the 32. -/
def parseUint32 (s : String) : Option Nat :=
  match s.data with
  | [] => none
  | l =>
    match parseNatAux l 0 with
    | some n => if n < 2 ^ 32 then some n else none
    | none => none

structure ServerConfig where
  port : String
  rateLimit : Int
  deriving Repr

structure DatabaseConfig where
  host : String
  port : String
  user : String
  password : String
  dbName : String
  deriving Repr

structure LogConfig where
  level : String
  deriving Repr

structure UserServiceConfig where
  url : String
  deriving Repr

structure CircuitBreakerConfig where
  maxRequests : Nat
  interval : ℚ
  timeout : ℚ
  deriving Repr

structure AuthConfig where
  secret : String
  issuer : String
  audience : String
  tokenTTL : ℚ
  serviceSubject : String
  serviceRoles : List String
  deriving Repr

structure RedisConfig where
  enabled : Bool
  host : String
  port : String
  password : String
  db : Int
  defaultTTL : ℚ
  deriving Repr

structure AuditLogConfig where
  enabled : Bool
  url : String
  timeout : ℚ
  deriving Repr

/-- Config of the order service. -/
structure Config where
  server : ServerConfig
  database : DatabaseConfig
  log : LogConfig
  userService : UserServiceConfig
  circuitBreaker : CircuitBreakerConfig
  auth : AuthConfig
  redis : RedisConfig
  auditLog : AuditLogConfig
  deriving Repr

/-- Load from the order-service config.go: every numeric variable that fails to parse
is silently replaced by its documented default, and the function always succeeds;
durations are converted to rational seconds. -/
def Load (env : Env) : Except String Config :=
  let rateLimit : Int :=
    match atoi (getEnv env "ORDER_SERVICE_RATE_LIMIT" "100") with
    | some n => n
    | none => 100
  let maxRequests : Nat :=
    match parseUint32 (getEnv env "CIRCUIT_BREAKER_MAX_REQUESTS" "3") with
    | some n => n
    | none => 3
  let interval : Int :=
    match atoi (getEnv env "CIRCUIT_BREAKER_INTERVAL" "60") with
    | some n => n
    | none => 60
  let timeout : Int :=
    match atoi (getEnv env "CIRCUIT_BREAKER_TIMEOUT" "30") with
    | some n => n
    | none => 30
  let tokenTTLMinutes : Int :=
    match atoi (getEnv env "AUTH_TOKEN_TTL_MINUTES" "60") with
    | some n => n
    | none => 60
  let cacheTTLSeconds : Int :=
    match atoi (getEnv env "REDIS_TTL_SECONDS" "300") with
    | some n => n
    | none => 300
  let cacheDB : Int :=
    match atoi (getEnv env "REDIS_DB" "0") with
    | some n => n
    | none => 0
  let auditTimeoutSeconds : Int :=
    match atoi (getEnv env "AUDIT_LOG_SERVICE_TIMEOUT_SECONDS" "3") with
    | some n => n
    | none => 3
  .ok
    { server :=
        { port := getEnv env "ORDER_SERVICE_PORT" "8082"
          rateLimit := rateLimit }
      database :=
        { host := getEnv env "ORDER_SERVICE_DB_HOST" "localhost"
          port := getEnv env "ORDER_SERVICE_DB_PORT" "5432"
          user := getEnv env "ORDER_SERVICE_DB_USER" "postgres"
          password := getEnv env "ORDER_SERVICE_DB_PASSWORD" "postgres"
          dbName := getEnv env "ORDER_SERVICE_DB_NAME" "appdb" }
      log := { level := getEnv env "ORDER_SERVICE_LOG_LEVEL" "info" }
      userService := { url := getEnv env "ORDER_SERVICE_USER_SERVICE_URL" "http://localhost:8081" }
      circuitBreaker :=
        { maxRequests := maxRequests
          interval := (interval : ℚ)
          timeout := (timeout : ℚ) }
      auth :=
        { secret := getEnv env "AUTH_JWT_SECRET" "change-me"
          issuer := getEnv env "AUTH_JWT_ISSUER" "enterprise-microservice-system"
          audience := getEnv env "AUTH_JWT_AUDIENCE" "enterprise-microservice-system"
          tokenTTL := (tokenTTLMinutes : ℚ) * 60
          serviceSubject := getEnv env "AUTH_SERVICE_SUBJECT" "order-service"
          serviceRoles := getEnvList env "AUTH_SERVICE_ROLES" ["service"] }
      redis :=
        { enabled := getEnvBool env "REDIS_ENABLED" true
          host := getEnv env "REDIS_HOST" "localhost"
          port := getEnv env "REDIS_PORT" "6379"
          password := getEnv env "REDIS_PASSWORD" ""
          db := cacheDB
          defaultTTL := (cacheTTLSeconds : ℚ) }
      auditLog :=
        { enabled := getEnvBool env "AUDIT_LOG_SERVICE_ENABLED" true
          url := getEnv env "AUDIT_LOG_SERVICE_URL" "http://localhost:8083"
          timeout := (auditTimeoutSeconds : ℚ) } }

/-- Decidable equality of Go-style results. -/
instance exceptDecEq {ε α : Type} [DecidableEq ε] [DecidableEq α] : DecidableEq (Except ε α)
  | .ok a, .ok b =>
    if h : a = b then .isTrue (h ▸ rfl) else .isFalse (fun hh => h (Except.ok.inj hh))
  | .ok _, .error _ => .isFalse (fun hh => Except.noConfusion hh)
  | .error _, .ok _ => .isFalse (fun hh => Except.noConfusion hh)
  | .error a, .error b =>
    if h : a = b then .isTrue (h ▸ rfl) else .isFalse (fun hh => h (Except.error.inj hh))

/-- Normalized order list query: defaults applied (page and page size at least 1) and
every present optional field distinct from the sentinel that encodes absence, as the
request binding constraints of the source guarantee (order statuses are never the
sentinel all, record statuses never the sentinel any, and a product filter is a
trimmed string distinct from the sentinel all). -/
def normalizedOrderQuery (q : ListOrdersQuery) : Prop :=
  1 ≤ q.page ∧ 1 ≤ q.pageSize ∧
  q.orderStatus ≠ some "all" ∧ q.status ≠ some "any" ∧
  (q.productId = "" ∨ (trimStr q.productId = q.productId ∧ q.productId ≠ "all"))

/-- Normalized repository list query: defaults applied and every present optional
field distinct from its absence sentinel (search trimmed and distinct from all,
visibility distinct from all, status distinct from any). -/
def normalizedRepoQuery (q : ListRepositoriesQuery) : Prop :=
  1 ≤ q.page ∧ 1 ≤ q.pageSize ∧
  (q.search = "" ∨ (trimStr q.search = q.search ∧ q.search ≠ "all")) ∧
  q.visibility ≠ "all" ∧
  q.status ≠ some "any"

/-- Scenario of spec section 8: a fresh breaker for the user service (default
configuration, created at time 0) that sees three consecutive failing Execute calls. -/
def breakerAfterThreeFailures (e1 e2 e3 : AppError) : CircuitBreaker :=
  ((((CircuitBreaker.make "user-service" DefaultBreakerConfig 0).exec (α := Unit) 0
    (.error (.app e1))).breaker.exec (α := Unit) 0
    (.error (.app e2))).breaker.exec (α := Unit) 0
    (.error (.app e3))).breaker

/-! ### Helper lemmas -/

theorem lookup_cons_eq {α : Type} (k k1 : String) (v1 : α) (rest : List (String × α))
    (h : k = k1) : ((k1, v1) :: rest).lookup k = some v1 := by
  simp only [List.lookup]
  rw [show (k == k1) = true by simpa using h]

theorem lookup_cons_ne {α : Type} (k k1 : String) (v1 : α) (rest : List (String × α))
    (h : k ≠ k1) : ((k1, v1) :: rest).lookup k = rest.lookup k := by
  simp only [List.lookup]
  rw [show (k == k1) = false by simpa using h]

theorem lookup_setEntry_self {α : Type} (l : List (String × α)) (k : String) (v : α) :
    (setEntry l k v).lookup k = some v := by
  induction l with
  | nil => simp [setEntry, lookup_cons_eq]
  | cons kv rest ih =>
    obtain ⟨k1, v1⟩ := kv
    by_cases h : k1 = k
    · rw [setEntry, if_pos h, lookup_cons_eq _ _ _ _ rfl]
    · rw [setEntry, if_neg h, lookup_cons_ne _ _ _ _ (fun hh => h hh.symm)]
      exact ih

theorem lookup_setEntry_other {α : Type} (l : List (String × α)) (k k' : String) (v : α)
    (h : k' ≠ k) : (setEntry l k v).lookup k' = l.lookup k' := by
  induction l with
  | nil => rw [setEntry, lookup_cons_ne _ _ _ _ h]
  | cons kv rest ih =>
    obtain ⟨k1, v1⟩ := kv
    by_cases h1 : k1 = k
    · rw [setEntry, if_pos h1, lookup_cons_ne _ _ _ _ h,
        lookup_cons_ne _ _ _ _ (fun hh => h (hh.trans h1))]
    · rw [setEntry, if_neg h1]
      by_cases h2 : k' = k1
      · rw [lookup_cons_eq _ _ _ _ h2, lookup_cons_eq _ _ _ _ h2]
      · rw [lookup_cons_ne _ _ _ _ h2, lookup_cons_ne _ _ _ _ h2]
        exact ih

theorem lookup_removeEntry_self {α : Type} (l : List (String × α)) (k : String) :
    (removeEntry l k).lookup k = none := by
  induction l with
  | nil => simp [removeEntry]
  | cons kv rest ih =>
    obtain ⟨k1, v1⟩ := kv
    by_cases h : k1 = k
    · rw [removeEntry, List.filter_cons]
      rw [show (decide ((k1, v1).1 ≠ k)) = false by simpa using h]
      simp only [Bool.false_eq_true, if_false]
      exact ih
    · rw [removeEntry, List.filter_cons]
      rw [show (decide ((k1, v1).1 ≠ k)) = true by simpa using h]
      simp only [if_true]
      rw [lookup_cons_ne _ _ _ _ (fun hh => h hh.symm)]
      exact ih

theorem lookup_removeEntry_other {α : Type} (l : List (String × α)) (k k' : String)
    (h : k' ≠ k) : (removeEntry l k).lookup k' = l.lookup k' := by
  induction l with
  | nil => simp [removeEntry]
  | cons kv rest ih =>
    obtain ⟨k1, v1⟩ := kv
    by_cases h1 : k1 = k
    · rw [removeEntry, List.filter_cons]
      rw [show (decide ((k1, v1).1 ≠ k)) = false by simpa using h1]
      simp only [Bool.false_eq_true, if_false]
      rw [lookup_cons_ne _ _ _ _ (fun hh => h (hh.trans h1))]
      exact ih
    · rw [removeEntry, List.filter_cons]
      rw [show (decide ((k1, v1).1 ≠ k)) = true by simpa using h1]
      simp only [if_true]
      by_cases h2 : k' = k1
      · rw [lookup_cons_eq _ _ _ _ h2, lookup_cons_eq _ _ _ _ h2]
      · rw [lookup_cons_ne _ _ _ _ h2, lookup_cons_ne _ _ _ _ h2]
        exact ih

theorem decodeDigits_append_singleton (cs : List Char) (c : Char) :
    decodeDigits (cs ++ [c]) = 10 * decodeDigits cs + charDigit c := by
  induction cs with
  | nil => simp [decodeDigits]
  | cons d ds ih =>
    have h1 : (d :: ds) ++ [c] = d :: (ds ++ [c]) := rfl
    rw [h1, decodeDigits, ih, decodeDigits]
    have h2 : (ds ++ [c]).length = ds.length + 1 := by simp
    rw [h2, pow_succ]
    ring

theorem charDigit_digitChar : ∀ d, d < 10 → charDigit (Nat.digitChar d) = d := by decide

theorem digitChar_bound : ∀ d, d < 10 →
    48 ≤ (Nat.digitChar d).toNat ∧ (Nat.digitChar d).toNat ≤ 57 := by decide

theorem decodeDigits_natStrAux :
    ∀ fuel n, n < 10 ^ fuel → decodeDigits (natStrAux fuel n) = n := by
  intro fuel
  induction fuel with
  | zero =>
    intro n h
    have hn : n = 0 := by simpa using h
    subst hn
    simp [natStrAux, decodeDigits]
  | succ f ih =>
    intro n h
    by_cases h10 : n < 10
    · simp [natStrAux, h10, decodeDigits, charDigit_digitChar n h10]
    · rw [natStrAux, if_neg h10, decodeDigits_append_singleton]
      have hdiv : n / 10 < 10 ^ f := by
        have h1 : n < 10 ^ f * 10 := by
          calc n < 10 ^ (f + 1) := h
          _ = 10 ^ f * 10 := by ring
        exact (Nat.div_lt_iff_lt_mul (by norm_num)).mpr h1
      rw [ih (n / 10) hdiv, charDigit_digitChar (n % 10) (Nat.mod_lt _ (by norm_num))]
      omega

theorem decodeDigits_natStr (n : Nat) : decodeDigits (natStr n).data = n := by
  have hlt : n < 10 ^ (n + 1) := by
    calc n < 10 ^ n := Nat.lt_pow_self (by norm_num) n
    _ ≤ 10 ^ (n + 1) := Nat.pow_le_pow_right (by norm_num) (by omega)
  exact decodeDigits_natStrAux (n + 1) n hlt

theorem natStr_injective : Function.Injective natStr := by
  intro a b h
  have h2 := congrArg (fun s => decodeDigits s.data) h
  simpa [decodeDigits_natStr] using h2

theorem natStrAux_digits :
    ∀ fuel n c, c ∈ natStrAux fuel n → 48 ≤ c.toNat ∧ c.toNat ≤ 57 := by
  intro fuel
  induction fuel with
  | zero => intro n c hc; simp [natStrAux] at hc
  | succ f ih =>
    intro n c hc
    rw [natStrAux] at hc
    by_cases h10 : n < 10
    · rw [if_pos h10] at hc
      simp only [List.mem_singleton] at hc
      subst hc
      exact digitChar_bound n h10
    · rw [if_neg h10] at hc
      simp only [List.mem_append, List.mem_singleton] at hc
      rcases hc with hc | hc
      · exact ih _ _ hc
      · subst hc
        exact digitChar_bound _ (Nat.mod_lt _ (by norm_num))

theorem natStr_ne_any (n : Nat) : natStr n ≠ "any" := by
  intro h
  have hm : 'a' ∈ (natStr n).data := by rw [h]; decide
  have hb := natStrAux_digits (n + 1) n 'a' hm
  exact absurd hb.2 (by decide)

theorem intStr_inj_of_nonneg {a b : Int} (ha : 0 ≤ a) (hb : 0 ≤ b)
    (h : intStr a = intStr b) : a = b := by
  rw [intStr, if_neg (by omega), intStr, if_neg (by omega)] at h
  have := natStr_injective h
  omega
theorem stClosedNeOpened : (CircuitState.closed = CircuitState.opened) = False := eq_false (by decide)
theorem stClosedNeHalf : (CircuitState.closed = CircuitState.halfOpen) = False := eq_false (by decide)
theorem stOpenedNeClosed : (CircuitState.opened = CircuitState.closed) = False := eq_false (by decide)
theorem stOpenedNeHalf : (CircuitState.opened = CircuitState.halfOpen) = False := eq_false (by decide)
theorem stHalfNeClosed : (CircuitState.halfOpen = CircuitState.closed) = False := eq_false (by decide)
theorem stHalfNeOpened : (CircuitState.halfOpen = CircuitState.opened) = False := eq_false (by decide)

theorem exec_closed_failure_noTrip {α : Type} (cb : CircuitBreaker) (now ex : ℚ) (e : GoErr)
    (hst : cb.state = .closed) (hexp : cb.expiry = some ex) (hnow : ¬ ex ≤ now)
    (htrip : readyToTrip ((cb.counts.onRequest).onFailure) = false) :
    cb.exec (α := α) now (.error e) =
      ⟨.error e, true, { cb with counts := (cb.counts.onRequest).onFailure }⟩ := by
  have hrefresh : cb.refresh now = cb := by
    simp only [CircuitBreaker.refresh, hst, hexp]
    rw [if_neg hnow]
  simp only [CircuitBreaker.exec, hrefresh, hst, stClosedNeOpened, stClosedNeHalf,
    if_false, false_and, CircuitBreaker.onFailure, htrip, Bool.false_eq_true]

theorem exec_closed_failure_trip {α : Type} (cb : CircuitBreaker) (now ex : ℚ) (e : GoErr)
    (hst : cb.state = .closed) (hexp : cb.expiry = some ex) (hnow : ¬ ex ≤ now)
    (htrip : readyToTrip ((cb.counts.onRequest).onFailure) = true) :
    cb.exec (α := α) now (.error e) =
      ⟨.error e, true,
        { cb with
          state := .opened
          counts := Counts.clear
          expiry := some (now + cb.timeout) }⟩ := by
  have hrefresh : cb.refresh now = cb := by
    simp only [CircuitBreaker.refresh, hst, hexp]
    rw [if_neg hnow]
  simp only [CircuitBreaker.exec, hrefresh, hst, stClosedNeOpened, stClosedNeHalf,
    if_false, false_and, CircuitBreaker.onFailure, htrip, CircuitBreaker.setState,
    CircuitBreaker.newGeneration, if_true, eq_self_iff_true, Bool.false_eq_true]

theorem exec_open_rejects {α : Type} (cb : CircuitBreaker) (now ex : ℚ) (op : Except GoErr α)
    (hst : cb.state = .opened) (hexp : cb.expiry = some ex) (hnow : ¬ ex ≤ now) :
    cb.exec (α := α) now op =
      ⟨.error (.app (NewCircuitOpen cb.serviceName)), false, cb⟩ := by
  have hrefresh : cb.refresh now = cb := by
    simp only [CircuitBreaker.refresh, hst, hexp]
    rw [if_neg hnow]
  simp only [CircuitBreaker.exec, hrefresh, hst, if_true, eq_self_iff_true]

theorem exec_closed_success {α : Type} (cb : CircuitBreaker) (now ex : ℚ) (v : α)
    (hst : cb.state = .closed) (hexp : cb.expiry = some ex) (hnow : ¬ ex ≤ now) :
    cb.exec (α := α) now (.ok v) =
      ⟨.ok v, true, { cb with counts := (cb.counts.onRequest).onSuccess }⟩ := by
  have hrefresh : cb.refresh now = cb := by
    simp only [CircuitBreaker.refresh, hst, hexp]
    rw [if_neg hnow]
  simp only [CircuitBreaker.exec, hrefresh, hst, stClosedNeOpened, stClosedNeHalf,
    if_false, false_and, CircuitBreaker.onSuccess]

theorem exec_open_timeout_success {α : Type} (cb : CircuitBreaker) (now ex : ℚ) (v : α)
    (hst : cb.state = .opened) (hexp : cb.expiry = some ex) (hnow : ex ≤ now)
    (hmax : ¬ cb.maxRequests ≤ 1) :
    cb.exec (α := α) now (.ok v) =
      ⟨.ok v, true,
        { cb with
          state := .halfOpen
          counts := ⟨1, 1, 0, 1, 0⟩
          expiry := none }⟩ := by
  have hrefresh : cb.refresh now =
      { cb with state := .halfOpen, counts := Counts.clear, expiry := none } := by
    simp only [CircuitBreaker.refresh, hst, hexp]
    rw [if_pos hnow]
    simp only [CircuitBreaker.setState, hst, stOpenedNeHalf, if_false,
      CircuitBreaker.newGeneration, Bool.false_eq_true]
  simp only [CircuitBreaker.exec, hrefresh, stHalfNeOpened, if_false, eq_self_iff_true,
    true_and, Counts.clear, Counts.onRequest, CircuitBreaker.onSuccess, Counts.onSuccess,
    Bool.false_eq_true]
  rw [if_neg (show ¬ cb.maxRequests ≤ 0 by omega)]
  rw [if_neg (show ¬ cb.maxRequests ≤ 0 + 1 by omega)]

theorem exec_halfOpen_success_stay {α : Type} (cb : CircuitBreaker) (now : ℚ) (v : α)
    (hst : cb.state = .halfOpen) (hreq : ¬ cb.maxRequests ≤ cb.counts.requests)
    (hcons : ¬ cb.maxRequests ≤ cb.counts.consecutiveSuccesses + 1) :
    cb.exec (α := α) now (.ok v) =
      ⟨.ok v, true, { cb with counts := (cb.counts.onRequest).onSuccess }⟩ := by
  have hrefresh : cb.refresh now = cb := by
    simp only [CircuitBreaker.refresh, hst]
  simp only [CircuitBreaker.exec, hrefresh, hst, stHalfNeOpened, if_false, eq_self_iff_true,
    true_and, CircuitBreaker.onSuccess, Counts.onRequest, Counts.onSuccess, Bool.false_eq_true]
  rw [if_neg hreq]
  rw [if_neg (by simpa using hcons)]

theorem exec_halfOpen_success_close {α : Type} (cb : CircuitBreaker) (now : ℚ) (v : α)
    (hst : cb.state = .halfOpen) (hreq : ¬ cb.maxRequests ≤ cb.counts.requests)
    (hcons : cb.maxRequests ≤ cb.counts.consecutiveSuccesses + 1) :
    cb.exec (α := α) now (.ok v) =
      ⟨.ok v, true,
        { cb with
          state := .closed
          counts := Counts.clear
          expiry := if cb.interval = 0 then none else some (now + cb.interval) }⟩ := by
  have hrefresh : cb.refresh now = cb := by
    simp only [CircuitBreaker.refresh, hst]
  simp only [CircuitBreaker.exec, hrefresh, hst, stHalfNeOpened, if_false, eq_self_iff_true,
    true_and, CircuitBreaker.onSuccess, Counts.onRequest, Counts.onSuccess, Bool.false_eq_true]
  rw [if_neg hreq]
  rw [if_pos (by simpa using hcons)]
  simp only [CircuitBreaker.setState, stHalfNeClosed, if_false, CircuitBreaker.newGeneration,
    Bool.false_eq_true]

theorem exec_halfOpen_failure {α : Type} (cb : CircuitBreaker) (now : ℚ) (e : GoErr)
    (hst : cb.state = .halfOpen) (hreq : ¬ cb.maxRequests ≤ cb.counts.requests) :
    cb.exec (α := α) now (.error e) =
      ⟨.error e, true,
        { cb with
          state := .opened
          counts := Counts.clear
          expiry := some (now + cb.timeout) }⟩ := by
  have hrefresh : cb.refresh now = cb := by
    simp only [CircuitBreaker.refresh, hst]
  simp only [CircuitBreaker.exec, hrefresh, hst, stHalfNeOpened, if_false, eq_self_iff_true,
    true_and, CircuitBreaker.onFailure, Counts.onRequest, Bool.false_eq_true]
  rw [if_neg hreq]
  simp only [CircuitBreaker.setState, stHalfNeOpened, if_false, CircuitBreaker.newGeneration,
    Bool.false_eq_true]

theorem breakerAfterThreeFailures_eq (e1 e2 e3 : AppError) :
    breakerAfterThreeFailures e1 e2 e3 =
      ⟨"user-service", 3, 60, 30, .opened, Counts.clear, some (0 + 30)⟩ := by
  have s1 : ((CircuitBreaker.make "user-service" DefaultBreakerConfig 0).exec (α := Unit) 0
      (.error (.app e1))).breaker =
      ⟨"user-service", 3, 60, 30, .closed, ⟨1, 0, 1, 0, 1⟩, some (0 + 60)⟩ := by
    rw [exec_closed_failure_noTrip _ _ (0 + 60) _ rfl rfl (by norm_num) (by decide)]
    rfl
  have s2 : ((⟨"user-service", 3, 60, 30, .closed, ⟨1, 0, 1, 0, 1⟩, some (0 + 60)⟩ :
      CircuitBreaker).exec (α := Unit) 0 (.error (.app e2))).breaker =
      ⟨"user-service", 3, 60, 30, .closed, ⟨2, 0, 2, 0, 2⟩, some (0 + 60)⟩ := by
    rw [exec_closed_failure_noTrip _ _ (0 + 60) _ rfl rfl (by norm_num) (by decide)]
    rfl
  have s3 : ((⟨"user-service", 3, 60, 30, .closed, ⟨2, 0, 2, 0, 2⟩, some (0 + 60)⟩ :
      CircuitBreaker).exec (α := Unit) 0 (.error (.app e3))).breaker =
      ⟨"user-service", 3, 60, 30, .opened, Counts.clear, some (0 + 30)⟩ := by
    rw [exec_closed_failure_trip _ _ (0 + 60) _ rfl rfl (by norm_num) (by decide)]
  rw [breakerAfterThreeFailures, s1, s2, s3]

/-- C1: for the breaker built by New with the in-source trip condition (at least 3
requests and failure ratio at least 0.5), three consecutive Execute calls whose
wrapped operation fails trip the breaker from Closed to Open, and every subsequent
Execute while the breaker is still Open (here: any time less than the 30 second
open timeout later) returns the distinct dependency-unavailable CIRCUIT_OPEN error
immediately, without invoking the wrapped operation. -/
theorem c1_three_failures_open_then_fast_fail (e1 e2 e3 : AppError) (t : ℚ)
    (h0 : 0 ≤ t) (ht : t < 30) :
    (breakerAfterThreeFailures e1 e2 e3).state = CircuitState.opened ∧
    ((breakerAfterThreeFailures e1 e2 e3).exec (α := Unit) t (.ok ())).result =
      .error (.app (NewCircuitOpen "user-service")) ∧
    ((breakerAfterThreeFailures e1 e2 e3).exec (α := Unit) t (.ok ())).invoked = false := by
  have hrun := breakerAfterThreeFailures_eq e1 e2 e3
  have hstep : (breakerAfterThreeFailures e1 e2 e3).exec (α := Unit) t (.ok ()) =
      ⟨.error (.app (NewCircuitOpen "user-service")), false,
        ⟨"user-service", 3, 60, 30, .opened, Counts.clear, some (0 + 30)⟩⟩ := by
    rw [hrun]
    rw [exec_open_rejects _ _ (0 + 30) _ rfl rfl (by rw [zero_add]; exact not_le.mpr ht)]
  rw [hstep, hrun]
  exact ⟨rfl, rfl, rfl⟩

theorem c1_three_failures_open_then_fast_fail_witness :
    (0 : ℚ) ≤ 5 ∧ (5 : ℚ) < 30 ∧
    ((breakerAfterThreeFailures ⟨"E1", "m1"⟩ ⟨"E2", "m2"⟩ ⟨"E3", "m3"⟩).state =
      CircuitState.opened ∧
    ((breakerAfterThreeFailures ⟨"E1", "m1"⟩ ⟨"E2", "m2"⟩ ⟨"E3", "m3"⟩).exec (α := Unit) 5
      (.ok ())).result = .error (.app (NewCircuitOpen "user-service")) ∧
    ((breakerAfterThreeFailures ⟨"E1", "m1"⟩ ⟨"E2", "m2"⟩ ⟨"E3", "m3"⟩).exec (α := Unit) 5
      (.ok ())).invoked = false) :=
  ⟨by norm_num, by norm_num,
    c1_three_failures_open_then_fast_fail ⟨"E1", "m1"⟩ ⟨"E2", "m2"⟩ ⟨"E3", "m3"⟩ 5
      (by norm_num) (by norm_num)⟩

/-- C2 counterexample: in the spec section 8 scenario (default configuration with
maxRequests 3, breaker tripped Open at time 0), the call at time 30 goes through in
HalfOpen and succeeds, yet the breaker stays in HalfOpen: a single HalfOpen success
does not transition the breaker to Closed, because closing requires maxRequests
consecutive successful trials. -/
theorem c2_counterexample_single_half_open_success_does_not_close :
    ((breakerAfterThreeFailures ⟨"E1", "m1"⟩ ⟨"E2", "m2"⟩ ⟨"E3", "m3"⟩).exec (α := Unit) 30
      (.ok ())).invoked = true ∧
    ((breakerAfterThreeFailures ⟨"E1", "m1"⟩ ⟨"E2", "m2"⟩ ⟨"E3", "m3"⟩).exec (α := Unit) 30
      (.ok ())).result = .ok () ∧
    ((breakerAfterThreeFailures ⟨"E1", "m1"⟩ ⟨"E2", "m2"⟩ ⟨"E3", "m3"⟩).exec (α := Unit) 30
      (.ok ())).breaker.state = CircuitState.halfOpen ∧
    ¬ ((breakerAfterThreeFailures ⟨"E1", "m1"⟩ ⟨"E2", "m2"⟩ ⟨"E3", "m3"⟩).exec (α := Unit) 30
      (.ok ())).breaker.state = CircuitState.closed := by
  have hstep : (breakerAfterThreeFailures ⟨"E1", "m1"⟩ ⟨"E2", "m2"⟩ ⟨"E3", "m3"⟩).exec
      (α := Unit) 30 (.ok ()) =
      ⟨.ok (), true, ⟨"user-service", 3, 60, 30, .halfOpen, ⟨1, 1, 0, 1, 0⟩, none⟩⟩ := by
    rw [breakerAfterThreeFailures_eq]
    rw [exec_open_timeout_success _ _ (0 + 30) _ rfl rfl (by norm_num) (by norm_num)]
  rw [hstep]
  exact ⟨rfl, rfl, rfl, by decide⟩

/-- C2 amended: once the open timeout has elapsed, the next Execute transitions the
breaker Open to HalfOpen and actually invokes the wrapped operation; a failure in
HalfOpen transitions it back to Open and restarts the 30 second timeout; and the
breaker transitions HalfOpen to Closed with its counters reset only after all
maxRequests (3 with the default configuration) permitted consecutive trials
succeed, not after a single success. -/
theorem c2_open_timeout_half_open_trials (name : String) (c c' : Counts)
    (exq : Option ℚ) (eo now now2 : ℚ) (e : AppError)
    (hle : eo ≤ now) (hreq : c'.requests < 3) :
    ((⟨name, 3, 60, 30, .opened, c, some eo⟩ : CircuitBreaker).exec (α := Unit) now
      (.ok ()) =
      ⟨.ok (), true, ⟨name, 3, 60, 30, .halfOpen, ⟨1, 1, 0, 1, 0⟩, none⟩⟩) ∧
    ((⟨name, 3, 60, 30, .halfOpen, c', exq⟩ : CircuitBreaker).exec (α := Unit) now2
      (.error (.app e)) =
      ⟨.error (.app e), true,
        ⟨name, 3, 60, 30, .opened, Counts.clear, some (now2 + 30)⟩⟩) ∧
    ((((((⟨name, 3, 60, 30, .halfOpen, Counts.clear, none⟩ : CircuitBreaker).exec (α := Unit)
        now2 (.ok ())).breaker.exec (α := Unit) now2 (.ok ())).breaker.exec (α := Unit) now2
        (.ok ())).breaker.state = CircuitState.closed) ∧
      ((((⟨name, 3, 60, 30, .halfOpen, Counts.clear, none⟩ : CircuitBreaker).exec (α := Unit)
        now2 (.ok ())).breaker.exec (α := Unit) now2 (.ok ())).breaker.exec (α := Unit) now2
        (.ok ())).breaker.counts = Counts.clear) := by
  refine ⟨?_, ?_, ?_⟩
  · rw [exec_open_timeout_success _ _ eo _ rfl rfl hle (by norm_num)]
  · rw [exec_halfOpen_failure _ _ _ rfl (by simpa using Nat.not_le.mpr hreq)]
  · have t1 : ((⟨name, 3, 60, 30, .halfOpen, Counts.clear, none⟩ : CircuitBreaker).exec
        (α := Unit) now2 (.ok ())).breaker =
        ⟨name, 3, 60, 30, .halfOpen, ⟨1, 1, 0, 1, 0⟩, none⟩ := by
      rw [exec_halfOpen_success_stay _ _ _ rfl (show ¬ (3 : Nat) ≤ 0 by decide)
        (show ¬ (3 : Nat) ≤ 0 + 1 by decide)]
      rfl
    have t2 : ((⟨name, 3, 60, 30, .halfOpen, ⟨1, 1, 0, 1, 0⟩, none⟩ : CircuitBreaker).exec
        (α := Unit) now2 (.ok ())).breaker =
        ⟨name, 3, 60, 30, .halfOpen, ⟨2, 2, 0, 2, 0⟩, none⟩ := by
      rw [exec_halfOpen_success_stay _ _ _ rfl (show ¬ (3 : Nat) ≤ 1 by decide)
        (show ¬ (3 : Nat) ≤ 1 + 1 by decide)]
      rfl
    have t3 : ((⟨name, 3, 60, 30, .halfOpen, ⟨2, 2, 0, 2, 0⟩, none⟩ : CircuitBreaker).exec
        (α := Unit) now2 (.ok ())).breaker =
        ⟨name, 3, 60, 30, .closed, Counts.clear,
          if (60 : ℚ) = 0 then none else some (now2 + 60)⟩ := by
      rw [exec_halfOpen_success_close _ _ _ rfl (show ¬ (3 : Nat) ≤ 2 by decide)
        (show (3 : Nat) ≤ 2 + 1 by decide)]
    rw [t1, t2, t3]
    exact ⟨rfl, rfl⟩

theorem c2_open_timeout_half_open_trials_witness :
    (30 : ℚ) ≤ 30 ∧ (1 : Nat) < 3 ∧
    (((⟨"user-service", 3, 60, 30, .opened, ⟨5, 1, 4, 0, 4⟩, some 30⟩ : CircuitBreaker).exec
        (α := Unit) 30 (.ok ()) =
      ⟨.ok (), true, ⟨"user-service", 3, 60, 30, .halfOpen, ⟨1, 1, 0, 1, 0⟩, none⟩⟩) ∧
    ((⟨"user-service", 3, 60, 30, .halfOpen, ⟨1, 1, 0, 1, 0⟩, none⟩ : CircuitBreaker).exec
        (α := Unit) 35 (.error (.app ⟨"X", "m"⟩)) =
      ⟨.error (.app ⟨"X", "m"⟩), true,
        ⟨"user-service", 3, 60, 30, .opened, Counts.clear, some (35 + 30)⟩⟩) ∧
    ((((((⟨"user-service", 3, 60, 30, .halfOpen, Counts.clear, none⟩ : CircuitBreaker).exec
        (α := Unit) 35 (.ok ())).breaker.exec (α := Unit) 35 (.ok ())).breaker.exec (α := Unit)
        35 (.ok ())).breaker.state = CircuitState.closed) ∧
      ((((⟨"user-service", 3, 60, 30, .halfOpen, Counts.clear, none⟩ : CircuitBreaker).exec
        (α := Unit) 35 (.ok ())).breaker.exec (α := Unit) 35 (.ok ())).breaker.exec (α := Unit)
        35 (.ok ())).breaker.counts = Counts.clear)) :=
  ⟨by norm_num, by norm_num,
    c2_open_timeout_half_open_trials "user-service" ⟨5, 1, 4, 0, 4⟩ ⟨1, 1, 0, 1, 0⟩ none
      30 30 35 ⟨"X", "m"⟩ (by norm_num) (by norm_num)⟩

/-- C7: a domain-level 404 from the user service is turned into the not-found
AppError by doGetRequest, so the breaker-wrapped call returns it as an error,
the operation is actually invoked, and the breaker records a failure exactly as
for a transport error: while the window is active and Closed is kept, the total
failure count grows by one; when the in-source trip condition is reached by this
very failure, the breaker opens; and the resulting breaker state is identical to
the one produced by a transport error. -/
theorem c7_not_found_counts_as_breaker_failure (cb : CircuitBreaker) (now ex : ℚ)
    (body : Option UserResponse) (hst : cb.state = .closed) (hexp : cb.expiry = some ex)
    (hnow : ¬ ex ≤ now) :
    doGetRequest (.response 404 body) = .error (.app (NewNotFound "user")) ∧
    (cb.exec now (doGetRequest (.response 404 body))).invoked = true ∧
    (cb.exec now (doGetRequest (.response 404 body))).result =
      .error (.app (NewNotFound "user")) ∧
    ((cb.exec now (doGetRequest (.response 404 body))).breaker.state = .closed →
      (cb.exec now (doGetRequest (.response 404 body))).breaker.counts.totalFailures =
        cb.counts.totalFailures + 1) ∧
    (readyToTrip ((cb.counts.onRequest).onFailure) = true →
      (cb.exec now (doGetRequest (.response 404 body))).breaker.state = .opened) ∧
    (cb.exec now (doGetRequest (.response 404 body))).breaker =
      (cb.exec now (doGetRequest .transportError)).breaker := by
  have h404 : doGetRequest (.response 404 body) =
      .error (.app (NewNotFound "user")) := rfl
  have htr : doGetRequest .transportError =
      .error (.app (NewInternal "failed to call user service")) := rfl
  rcases Bool.eq_false_or_eq_true (readyToTrip ((cb.counts.onRequest).onFailure)) with
    htrip | htrip
  swap
  · have hx := exec_closed_failure_noTrip (α := Option User) cb now ex
      (.app (NewNotFound "user")) hst hexp hnow htrip
    have hy := exec_closed_failure_noTrip (α := Option User) cb now ex
      (.app (NewInternal "failed to call user service")) hst hexp hnow htrip
    rw [h404, htr, hx, hy]
    refine ⟨rfl, rfl, rfl, fun _ => ?_, fun hc => ?_, rfl⟩
    · simp [Counts.onRequest, Counts.onFailure]
    · rw [htrip] at hc
      exact absurd hc (by decide)
  · have hx := exec_closed_failure_trip (α := Option User) cb now ex
      (.app (NewNotFound "user")) hst hexp hnow htrip
    have hy := exec_closed_failure_trip (α := Option User) cb now ex
      (.app (NewInternal "failed to call user service")) hst hexp hnow htrip
    rw [h404, htr, hx, hy]
    refine ⟨rfl, rfl, rfl, fun hc => ?_, fun _ => rfl, rfl⟩
    exact absurd hc (show ¬ CircuitState.opened = CircuitState.closed by decide)

theorem c7_not_found_counts_as_breaker_failure_witness :
    ((⟨"user-service", 3, 60, 30, .closed, Counts.clear, some 60⟩ :
        CircuitBreaker).state = .closed) ∧
    ((⟨"user-service", 3, 60, 30, .closed, Counts.clear, some 60⟩ :
        CircuitBreaker).expiry = some 60) ∧
    ¬ (60 : ℚ) ≤ 0 ∧
    (doGetRequest (.response 404 none) = .error (.app (NewNotFound "user")) ∧
    ((⟨"user-service", 3, 60, 30, .closed, Counts.clear, some 60⟩ : CircuitBreaker).exec 0
      (doGetRequest (.response 404 none))).invoked = true ∧
    ((⟨"user-service", 3, 60, 30, .closed, Counts.clear, some 60⟩ : CircuitBreaker).exec 0
      (doGetRequest (.response 404 none))).result = .error (.app (NewNotFound "user")) ∧
    (((⟨"user-service", 3, 60, 30, .closed, Counts.clear, some 60⟩ : CircuitBreaker).exec 0
      (doGetRequest (.response 404 none))).breaker.state = .closed →
      ((⟨"user-service", 3, 60, 30, .closed, Counts.clear, some 60⟩ : CircuitBreaker).exec 0
        (doGetRequest (.response 404 none))).breaker.counts.totalFailures =
        (⟨"user-service", 3, 60, 30, .closed, Counts.clear, some 60⟩ :
          CircuitBreaker).counts.totalFailures + 1) ∧
    (readyToTrip (((⟨"user-service", 3, 60, 30, .closed, Counts.clear, some 60⟩ :
        CircuitBreaker).counts.onRequest).onFailure) = true →
      ((⟨"user-service", 3, 60, 30, .closed, Counts.clear, some 60⟩ : CircuitBreaker).exec 0
        (doGetRequest (.response 404 none))).breaker.state = .opened) ∧
    ((⟨"user-service", 3, 60, 30, .closed, Counts.clear, some 60⟩ : CircuitBreaker).exec 0
      (doGetRequest (.response 404 none))).breaker =
      ((⟨"user-service", 3, 60, 30, .closed, Counts.clear, some 60⟩ : CircuitBreaker).exec 0
        (doGetRequest .transportError)).breaker) :=
  ⟨rfl, rfl, by norm_num,
    c7_not_found_counts_as_breaker_failure
      ⟨"user-service", 3, 60, 30, .closed, Counts.clear, some 60⟩ 0 60 none rfl rfl
      (by norm_num)⟩

/-- C8 counterexample: an ExecuteWithContext call with an already-cancelled context
returns the context error without invoking the operation and leaves the breaker,
including its failure counter, completely unchanged - the call is not recorded as
a breaker failure. -/
theorem c8_counterexample_cancelled_context_not_recorded :
    ((CircuitBreaker.make "user-service" DefaultBreakerConfig 0).execWithContext (α := Unit)
      true 5 (.ok ())).result = .error .contextCanceled ∧
    ((CircuitBreaker.make "user-service" DefaultBreakerConfig 0).execWithContext (α := Unit)
      true 5 (.ok ())).invoked = false ∧
    ((CircuitBreaker.make "user-service" DefaultBreakerConfig 0).execWithContext (α := Unit)
      true 5 (.ok ())).breaker = CircuitBreaker.make "user-service" DefaultBreakerConfig 0 ∧
    ((CircuitBreaker.make "user-service" DefaultBreakerConfig 0).execWithContext (α := Unit)
      true 5 (.ok ())).breaker.counts.totalFailures = 0 :=
  ⟨rfl, rfl, rfl, rfl⟩

/-- C8 amended: ExecuteWithContext checks the caller context before consulting the
breaker; with a cancelled context it returns the context error immediately, does not
invoke the wrapped operation, and leaves the breaker state and counters unchanged
(no failure is recorded). -/
theorem c8_cancelled_context_skips_breaker {α : Type} (cb : CircuitBreaker) (now : ℚ)
    (op : Except GoErr α) :
    cb.execWithContext true now op = ⟨.error .contextCanceled, false, cb⟩ := rfl

theorem getLimiter_hit (rl : RateLimiter) (key : String) (l : Limiter) (now : ℚ)
    (h : rl.limiters.lookup key = some l) : rl.getLimiter key now = (l, rl) := by
  simp only [RateLimiter.getLimiter, h]

theorem getLimiter_miss (rl : RateLimiter) (key : String) (now : ℚ)
    (h : rl.limiters.lookup key = none) :
    rl.getLimiter key now =
      (⟨rl.limit, rl.burst, (rl.burst : ℚ), now⟩,
        { rl with limiters :=
            setEntry rl.limiters key ⟨rl.limit, rl.burst, (rl.burst : ℚ), now⟩ }) := by
  simp only [RateLimiter.getLimiter, h]

theorem middlewareStep_allow (rl rl1 : RateLimiter) (key : String) (l : Limiter) (now : ℚ)
    (hg : rl.getLimiter key now = (l, rl1)) (h1 : 1 ≤ l.advance now) :
    rl.middlewareStep key now =
      (none,
        { rl1 with
          limiters := setEntry rl1.limiters key ⟨l.limit, l.burst, l.advance now - 1, now⟩ }) := by
  simp only [RateLimiter.middlewareStep, hg, Limiter.allow]
  rw [if_pos h1]
  simp

theorem middlewareStep_reject (rl rl1 : RateLimiter) (key : String) (l : Limiter) (now : ℚ)
    (hg : rl.getLimiter key now = (l, rl1)) (h1 : ¬ 1 ≤ l.advance now) :
    rl.middlewareStep key now =
      (some NewRateLimit,
        { rl1 with
          limiters := setEntry rl1.limiters key ⟨l.limit, l.burst, l.advance now, now⟩ }) := by
  simp only [RateLimiter.middlewareStep, hg, Limiter.allow]
  rw [if_neg h1]
  simp

/-- C4: for a limiter with burst capacity 2 and refill rate 2 tokens per second and a
single key first seen with a full bucket, the first two immediate admission checks
are allowed, the third immediate check is rejected, and after waiting at least half
a second exactly one further request is allowed: the next check is allowed and,
while less than a full second has passed since the burst (so that a second token has
not yet accrued), an immediate request after it is rejected again. -/
theorem c4_burst_two_refill_half_second (w : ℚ) (hw : 1 / 2 ≤ w) :
    (NewRateLimiter 2 2).run [("A", 0), ("A", 0), ("A", 0), ("A", w)] =
      [true, true, false, true] ∧
    (w < 1 →
      (NewRateLimiter 2 2).run [("A", 0), ("A", 0), ("A", 0), ("A", w), ("A", w)] =
        [true, true, false, true, false]) := by
  have h0 : NewRateLimiter 2 2 = ⟨[], 2, 2⟩ := by
    rw [NewRateLimiter]
    norm_num
  have hg1 : (⟨[], 2, 2⟩ : RateLimiter).getLimiter "A" 0 =
      (⟨2, 2, 2, 0⟩, ⟨[("A", ⟨2, 2, 2, 0⟩)], 2, 2⟩) := by
    rw [getLimiter_miss ⟨[], 2, 2⟩ "A" 0 rfl]
    norm_num [setEntry]
  have s1 : (⟨[], 2, 2⟩ : RateLimiter).middlewareStep "A" 0 =
      (none, ⟨[("A", ⟨2, 2, 1, 0⟩)], 2, 2⟩) := by
    rw [middlewareStep_allow _ _ _ _ _ hg1 (by rw [Limiter.advance]; norm_num)]
    norm_num [Limiter.advance, setEntry]
  have s2 : (⟨[("A", ⟨2, 2, 1, 0⟩)], 2, 2⟩ : RateLimiter).middlewareStep "A" 0 =
      (none, ⟨[("A", ⟨2, 2, 0, 0⟩)], 2, 2⟩) := by
    rw [middlewareStep_allow _ _ _ ⟨2, 2, 1, 0⟩ _
      (getLimiter_hit _ _ _ _ (lookup_cons_eq _ _ _ _ rfl))
      (by rw [Limiter.advance]; norm_num)]
    norm_num [Limiter.advance, setEntry]
  have s3 : (⟨[("A", ⟨2, 2, 0, 0⟩)], 2, 2⟩ : RateLimiter).middlewareStep "A" 0 =
      (some NewRateLimit, ⟨[("A", ⟨2, 2, 0, 0⟩)], 2, 2⟩) := by
    rw [middlewareStep_reject _ _ _ ⟨2, 2, 0, 0⟩ _
      (getLimiter_hit _ _ _ _ (lookup_cons_eq _ _ _ _ rfl))
      (by rw [Limiter.advance]; norm_num)]
    norm_num [Limiter.advance, setEntry]
  have h4 : (1 : ℚ) ≤ Limiter.advance ⟨2, 2, 0, 0⟩ w := by
    rw [Limiter.advance, le_min_iff]
    constructor
    · norm_num
    · simp only []
      linarith
  have s4 : (⟨[("A", ⟨2, 2, 0, 0⟩)], 2, 2⟩ : RateLimiter).middlewareStep "A" w =
      (none, ⟨[("A", ⟨2, 2, Limiter.advance ⟨2, 2, 0, 0⟩ w - 1, w⟩)], 2, 2⟩) := by
    rw [middlewareStep_allow _ _ _ ⟨2, 2, 0, 0⟩ _
      (getLimiter_hit _ _ _ _ (lookup_cons_eq _ _ _ _ rfl)) h4]
    simp [setEntry]
  refine ⟨?_, fun hw1 => ?_⟩
  · rw [h0]
    simp only [RateLimiter.run, s1, s2, s3, s4]
    rfl
  · have hrej : ¬ (1 : ℚ) ≤
        Limiter.advance ⟨2, 2, Limiter.advance ⟨2, 2, 0, 0⟩ w - 1, w⟩ w := by
      have h5 : Limiter.advance ⟨2, 2, Limiter.advance ⟨2, 2, 0, 0⟩ w - 1, w⟩ w ≤
          (Limiter.advance ⟨2, 2, 0, 0⟩ w - 1) + (w - w) * 2 := by
        rw [Limiter.advance]
        exact min_le_right _ _
      have h6 : Limiter.advance ⟨2, 2, 0, 0⟩ w ≤ 0 + (w - 0) * 2 := by
        rw [Limiter.advance]
        exact min_le_right _ _
      refine not_le.mpr ?_
      calc Limiter.advance ⟨2, 2, Limiter.advance ⟨2, 2, 0, 0⟩ w - 1, w⟩ w
          ≤ (Limiter.advance ⟨2, 2, 0, 0⟩ w - 1) + (w - w) * 2 := h5
        _ < 1 := by linarith
    have s5 : ((⟨[("A", ⟨2, 2, Limiter.advance ⟨2, 2, 0, 0⟩ w - 1, w⟩)], 2, 2⟩ :
        RateLimiter).middlewareStep "A" w).fst = some NewRateLimit := by
      rw [middlewareStep_reject _ _ _ ⟨2, 2, Limiter.advance ⟨2, 2, 0, 0⟩ w - 1, w⟩ _
        (getLimiter_hit _ _ _ _ (lookup_cons_eq _ _ _ _ rfl)) hrej]
    rw [h0]
    simp only [RateLimiter.run, s1, s2, s3, s4, s5]
    rfl

theorem c4_burst_two_refill_half_second_witness :
    (1 / 2 : ℚ) ≤ 1 / 2 ∧
    ((NewRateLimiter 2 2).run [("A", 0), ("A", 0), ("A", 0), ("A", 1 / 2)] =
      [true, true, false, true] ∧
    ((1 / 2 : ℚ) < 1 →
      (NewRateLimiter 2 2).run [("A", 0), ("A", 0), ("A", 0), ("A", 1 / 2), ("A", 1 / 2)] =
        [true, true, false, true, false])) :=
  ⟨by norm_num, c4_burst_two_refill_half_second (1 / 2) (by norm_num)⟩

theorem cacheGetOrder_none (c : Cache) (id : Nat) (he : c.enabled = true)
    (hh : c.healthy = true) (hl : c.entries.lookup ("order:" ++ natStr id) = none) :
    cacheGetOrder (some c) id = none := by
  simp only [cacheGetOrder, he, Cache.getJSON, hh, hl, Bool.not_true, Bool.false_eq_true,
    if_false, if_true]

theorem cacheGetOrder_hit (c : Cache) (id : Nat) (ow : OrderWithUser) (ttl : ℚ)
    (he : c.enabled = true) (hh : c.healthy = true)
    (hl : c.entries.lookup ("order:" ++ natStr id) = some ⟨.orderEntry ow, ttl⟩) :
    cacheGetOrder (some c) id = some ow := by
  simp only [cacheGetOrder, he, Cache.getJSON, hh, hl, Bool.not_true, Bool.false_eq_true,
    if_false, if_true]

theorem cacheSetOrder_active (c : Cache) (ow : OrderWithUser) (he : c.enabled = true)
    (hh : c.healthy = true) :
    cacheSetOrder (some c) (some ow) =
      some { c with
        entries := setEntry c.entries ("order:" ++ natStr ow.order.id) ⟨.orderEntry ow, 0⟩ } := by
  simp only [cacheSetOrder, he, Cache.setJSON, hh, Bool.not_true, Bool.false_eq_true,
    if_false, if_true]

theorem cacheDeleteOrder_active (c : Cache) (id : Nat) (he : c.enabled = true)
    (hh : c.healthy = true) :
    cacheDeleteOrder (some c) id =
      some { c with entries := removeEntry c.entries ("order:" ++ natStr id) } := by
  simp only [cacheDeleteOrder, he, Cache.deleteKey, hh, Bool.not_true, Bool.false_eq_true,
    if_false, if_true]

theorem cacheGetRepository_hit (c : Cache) (id : Nat) (r : Repository) (ttl : ℚ)
    (he : c.enabled = true) (hh : c.healthy = true)
    (hl : c.entries.lookup ("repository:" ++ natStr id) = some ⟨.repoEntry r, ttl⟩) :
    cacheGetRepository (some c) id = some r := by
  simp only [cacheGetRepository, he, Cache.getJSON, hh, hl, Bool.not_true,
    Bool.false_eq_true, if_false, if_true]

theorem cacheSetRepository_active (c : Cache) (r : Repository) (he : c.enabled = true)
    (hh : c.healthy = true) :
    cacheSetRepository (some c) (some r) =
      some { c with
        entries := setEntry c.entries ("repository:" ++ natStr r.id) ⟨.repoEntry r, 0⟩ } := by
  simp only [cacheSetRepository, he, Cache.setJSON, hh, Bool.not_true, Bool.false_eq_true,
    if_false, if_true]

theorem cacheDeleteRepository_active (c : Cache) (id : Nat) (he : c.enabled = true)
    (hh : c.healthy = true) :
    cacheDeleteRepository (some c) id =
      some { c with entries := removeEntry c.entries ("repository:" ++ natStr id) } := by
  simp only [cacheDeleteRepository, he, Cache.deleteKey, hh, Bool.not_true,
    Bool.false_eq_true, if_false, if_true]

/-- C3 counterexample: with an enabled, healthy cache whose entry order:1 holds the
previously cached order, a successful UpdateOrder of order 1 succeeds and returns the
updated order, but the cache afterwards no longer contains the key order:1 at all -
the order service deletes the entity entry on update instead of refreshing it with
the value just written. -/
theorem c3_counterexample_update_order_deletes_entry :
    (UpdateOrder
      ⟨[⟨1, 7, "p1", 1, 10, "pending", "active", "system", "system", 0, 0⟩],
        some ⟨true, true, [("order:1", ⟨.orderEntry
          ⟨⟨1, 7, "p1", 1, 10, "pending", "active", "system", "system", 0, 0⟩, none⟩, 0⟩)]⟩⟩
      1 ⟨some "shipped"⟩ "bob").fst =
      .ok ⟨1, 7, "p1", 1, 10, "shipped", "active", "system", "bob", 0, 0⟩ ∧
    (UpdateOrder
      ⟨[⟨1, 7, "p1", 1, 10, "pending", "active", "system", "system", 0, 0⟩],
        some ⟨true, true, [("order:1", ⟨.orderEntry
          ⟨⟨1, 7, "p1", 1, 10, "pending", "active", "system", "system", 0, 0⟩, none⟩, 0⟩)]⟩⟩
      1 ⟨some "shipped"⟩ "bob").snd.cache = some ⟨true, true, []⟩ := by decide

/-- C3 amended: with an enabled and healthy cache, a successful create refreshes the
EntityKey entry with the value just written, a successful UpdateRepository refreshes
repository:id with the updated repository, and a successful delete removes the
EntityKey entry - but a successful UpdateOrder removes the entry order:id instead of
refreshing it, so the cache does not hold the updated order until a later read
repopulates it. -/
theorem c3_entity_cache_on_writes :
    (∀ (rows : List Order) (c : Cache) (id : Nat) (req : UpdateOrderRequest)
      (actor : String) (o : Order), c.enabled = true → c.healthy = true →
      findOrderByID rows id = some o →
      ∃ c1, (UpdateOrder ⟨rows, some c⟩ id req actor).snd.cache = some c1 ∧
        c1.entries.lookup ("order:" ++ natStr id) = none) ∧
    (∀ (rows : List Repository) (c : Cache) (id : Nat) (req : UpdateRepositoryRequest)
      (actor : String) (r0 : Repository), c.enabled = true → c.healthy = true →
      findRepoByID rows id = some r0 →
      (match req.name with
        | some n => if n ≠ r0.name then (findRepoByName rows n).isSome else false
        | none => false) = false →
      ∃ r c1, (UpdateRepository ⟨rows, some c⟩ id req actor).fst = .ok r ∧
        (UpdateRepository ⟨rows, some c⟩ id req actor).snd.cache = some c1 ∧
        c1.entries.lookup ("repository:" ++ natStr r.id) = some ⟨.repoEntry r, 0⟩) ∧
    (∀ (rows : List Order) (c : Cache) (id : Nat) (actor : String) (now : ℚ) (o : Order),
      c.enabled = true → c.healthy = true → findOrderByID rows id = some o →
      ∃ c1, (DeleteOrder ⟨rows, some c⟩ id actor now).snd.cache = some c1 ∧
        c1.entries.lookup ("order:" ++ natStr id) = none) ∧
    (∀ (rows : List Repository) (c : Cache) (id : Nat) (actor : String) (now : ℚ)
      (r0 : Repository), c.enabled = true → c.healthy = true →
      findRepoByID rows id = some r0 →
      ∃ c1, (DeleteRepository ⟨rows, some c⟩ id actor now).snd.cache = some c1 ∧
        c1.entries.lookup ("repository:" ++ natStr id) = none) ∧
    (∀ (rows : List Order) (c : Cache) (req : CreateOrderRequest) (actor : String)
      (u : User) (now : ℚ), c.enabled = true → c.healthy = true → u.status = "active" →
      ∃ ow c1, (CreateOrder ⟨rows, some c⟩ req actor (.ok (some u)) now).fst = .ok ow ∧
        (CreateOrder ⟨rows, some c⟩ req actor (.ok (some u)) now).snd.cache = some c1 ∧
        c1.entries.lookup ("order:" ++ natStr ow.order.id) = some ⟨.orderEntry ow, 0⟩) ∧
    (∀ (rows : List Repository) (c : Cache) (req : CreateRepositoryRequest)
      (actor : String) (now : ℚ), c.enabled = true → c.healthy = true →
      findRepoByName rows req.name = none →
      ∃ r c1, (CreateRepository ⟨rows, some c⟩ req actor now).fst = .ok r ∧
        (CreateRepository ⟨rows, some c⟩ req actor now).snd.cache = some c1 ∧
        c1.entries.lookup ("repository:" ++ natStr r.id) = some ⟨.repoEntry r, 0⟩) := by
  refine ⟨?_, ?_, ?_, ?_, ?_, ?_⟩
  · intro rows c id req actor o he hh hfind
    simp only [UpdateOrder, hfind, cacheDeleteOrder_active c id he hh]
    exact ⟨_, rfl, lookup_removeEntry_self _ _⟩
  · intro rows c id req actor r0 he hh hfind hconf
    simp only [UpdateRepository, hfind, hconf, Bool.false_eq_true, if_false]
    rw [cacheSetRepository_active c _ he hh]
    exact ⟨_, _, rfl, rfl, lookup_setEntry_self _ _ _⟩
  · intro rows c id actor now o he hh hfind
    simp only [DeleteOrder, hfind, cacheDeleteOrder_active c id he hh]
    exact ⟨_, rfl, lookup_removeEntry_self _ _⟩
  · intro rows c id actor now r0 he hh hfind
    simp only [DeleteRepository, hfind, cacheDeleteRepository_active c id he hh]
    exact ⟨_, rfl, lookup_removeEntry_self _ _⟩
  · intro rows c req actor u now he hh hstatus
    simp only [CreateOrder, hstatus, ne_eq, not_true_eq_false, Bool.false_eq_true, if_false]
    rw [cacheSetOrder_active c _ he hh]
    exact ⟨_, _, rfl, rfl, lookup_setEntry_self _ _ _⟩
  · intro rows c req actor now he hh hname
    simp only [CreateRepository, hname]
    rw [cacheSetRepository_active c _ he hh]
    exact ⟨_, _, rfl, rfl, lookup_setEntry_self _ _ _⟩

theorem c3_entity_cache_on_writes_witness :
    findOrderByID [⟨1, 7, "p1", 1, 10, "pending", "active", "system", "system", 0, 0⟩] 1 =
      some ⟨1, 7, "p1", 1, 10, "pending", "active", "system", "system", 0, 0⟩ ∧
    ∃ c1, (UpdateOrder
        ⟨[⟨1, 7, "p1", 1, 10, "pending", "active", "system", "system", 0, 0⟩],
          some ⟨true, true, []⟩⟩ 1 ⟨some "shipped"⟩ "bob").snd.cache = some c1 ∧
      c1.entries.lookup ("order:" ++ natStr 1) = none :=
  ⟨by decide,
    c3_entity_cache_on_writes.1
      [⟨1, 7, "p1", 1, 10, "pending", "active", "system", "system", 0, 0⟩]
      ⟨true, true, []⟩ 1 ⟨some "shipped"⟩ "bob"
      ⟨1, 7, "p1", 1, 10, "pending", "active", "system", "system", 0, 0⟩
      rfl rfl (by decide)⟩

theorem findOrderByID_spec (rows : List Order) (id : Nat) (o : Order)
    (h : findOrderByID rows id = some o) : o.id = id := by
  have h2 := List.find?_some h
  simp only [Bool.and_eq_true, decide_eq_true_eq] at h2
  exact h2.1

/-- C10: when GetOrder misses the cache and the cross-service user lookup fails with
any error, it returns the order with no user data, writes exactly that user-less
value to the entity key with TTL 0 (no expiry), and every subsequent GetOrder for the
same id returns the cached user-less value regardless of the user-service outcome,
until an UpdateOrder or DeleteOrder for that id removes the entry. -/
theorem c10_get_order_caches_userless_value (rows : List Order) (c : Cache) (id : Nat)
    (e : GoErr) (o : Order) (he : c.enabled = true) (hh : c.healthy = true)
    (hmiss : c.entries.lookup ("order:" ++ natStr id) = none)
    (hfind : findOrderByID rows id = some o) :
    (GetOrder ⟨rows, some c⟩ id (.error e)).fst = .ok ⟨o, none⟩ ∧
    (∃ c1, (GetOrder ⟨rows, some c⟩ id (.error e)).snd.cache = some c1 ∧
      c1.entries.lookup ("order:" ++ natStr id) = some ⟨.orderEntry ⟨o, none⟩, 0⟩) ∧
    (∀ userResult2 : Except GoErr (Option User),
      (GetOrder (GetOrder ⟨rows, some c⟩ id (.error e)).snd id userResult2).fst =
        .ok ⟨o, none⟩) ∧
    (∀ (req : UpdateOrderRequest) (actor : String),
      ∃ c2, (UpdateOrder (GetOrder ⟨rows, some c⟩ id (.error e)).snd id req
          actor).snd.cache = some c2 ∧
        c2.entries.lookup ("order:" ++ natStr id) = none) ∧
    (∀ (actor : String) (now : ℚ),
      ∃ c2, (DeleteOrder (GetOrder ⟨rows, some c⟩ id (.error e)).snd id actor
          now).snd.cache = some c2 ∧
        c2.entries.lookup ("order:" ++ natStr id) = none) := by
  have hid : o.id = id := findOrderByID_spec rows id o hfind
  have hgets : cacheGetOrder (some c) id = none := cacheGetOrder_none c id he hh hmiss
  have hstep : GetOrder ⟨rows, some c⟩ id (.error e) =
      (.ok ⟨o, none⟩, ⟨rows, some { c with
        entries := setEntry c.entries ("order:" ++ natStr id) ⟨.orderEntry ⟨o, none⟩, 0⟩ }⟩) := by
    simp only [GetOrder, hgets, hfind, cacheSetOrder_active c _ he hh, hid]
  rw [hstep]
  have hhit : cacheGetOrder (some { c with
      entries := setEntry c.entries ("order:" ++ natStr id) ⟨.orderEntry ⟨o, none⟩, 0⟩ }) id =
      some ⟨o, none⟩ :=
    cacheGetOrder_hit _ id ⟨o, none⟩ 0 he hh (lookup_setEntry_self _ _ _)
  refine ⟨rfl, ⟨_, rfl, lookup_setEntry_self _ _ _⟩, ?_, ?_, ?_⟩
  · intro ur2
    simp only [GetOrder, hhit]
  · intro req actor
    simp only [UpdateOrder, hfind, cacheDeleteOrder_active
      { c with entries := setEntry c.entries ("order:" ++ natStr id) ⟨.orderEntry ⟨o, none⟩, 0⟩ }
      id he hh]
    exact ⟨_, rfl, lookup_removeEntry_self _ _⟩
  · intro actor now
    simp only [DeleteOrder, hfind, cacheDeleteOrder_active
      { c with entries := setEntry c.entries ("order:" ++ natStr id) ⟨.orderEntry ⟨o, none⟩, 0⟩ }
      id he hh]
    exact ⟨_, rfl, lookup_removeEntry_self _ _⟩

theorem c10_get_order_caches_userless_value_witness :
    (⟨true, true, []⟩ : Cache).enabled = true ∧
    (⟨true, true, []⟩ : Cache).healthy = true ∧
    (⟨true, true, []⟩ : Cache).entries.lookup ("order:" ++ natStr 1) = none ∧
    findOrderByID [⟨1, 7, "p1", 1, 10, "pending", "active", "system", "system", 0, 0⟩] 1 =
      some ⟨1, 7, "p1", 1, 10, "pending", "active", "system", "system", 0, 0⟩ ∧
    ((GetOrder ⟨[⟨1, 7, "p1", 1, 10, "pending", "active", "system", "system", 0, 0⟩],
        some ⟨true, true, []⟩⟩ 1 (.error (.app (NewCircuitOpen "user-service")))).fst =
      .ok ⟨⟨1, 7, "p1", 1, 10, "pending", "active", "system", "system", 0, 0⟩, none⟩ ∧
    (∃ c1, (GetOrder ⟨[⟨1, 7, "p1", 1, 10, "pending", "active", "system", "system", 0, 0⟩],
        some ⟨true, true, []⟩⟩ 1 (.error (.app (NewCircuitOpen "user-service")))).snd.cache =
        some c1 ∧
      c1.entries.lookup ("order:" ++ natStr 1) = some
        ⟨.orderEntry ⟨⟨1, 7, "p1", 1, 10, "pending", "active", "system", "system", 0, 0⟩,
          none⟩, 0⟩) ∧
    (∀ userResult2 : Except GoErr (Option User),
      (GetOrder (GetOrder ⟨[⟨1, 7, "p1", 1, 10, "pending", "active", "system", "system",
          0, 0⟩], some ⟨true, true, []⟩⟩ 1
          (.error (.app (NewCircuitOpen "user-service")))).snd 1 userResult2).fst =
        .ok ⟨⟨1, 7, "p1", 1, 10, "pending", "active", "system", "system", 0, 0⟩, none⟩) ∧
    (∀ (req : UpdateOrderRequest) (actor : String),
      ∃ c2, (UpdateOrder (GetOrder ⟨[⟨1, 7, "p1", 1, 10, "pending", "active", "system",
          "system", 0, 0⟩], some ⟨true, true, []⟩⟩ 1
          (.error (.app (NewCircuitOpen "user-service")))).snd 1 req actor).snd.cache =
          some c2 ∧
        c2.entries.lookup ("order:" ++ natStr 1) = none) ∧
    (∀ (actor : String) (now : ℚ),
      ∃ c2, (DeleteOrder (GetOrder ⟨[⟨1, 7, "p1", 1, 10, "pending", "active", "system",
          "system", 0, 0⟩], some ⟨true, true, []⟩⟩ 1
          (.error (.app (NewCircuitOpen "user-service")))).snd 1 actor now).snd.cache =
          some c2 ∧
        c2.entries.lookup ("order:" ++ natStr 1) = none)) :=
  ⟨rfl, rfl, rfl, by decide,
    c10_get_order_caches_userless_value
      [⟨1, 7, "p1", 1, 10, "pending", "active", "system", "system", 0, 0⟩]
      ⟨true, true, []⟩ 1 (.app (NewCircuitOpen "user-service"))
      ⟨1, 7, "p1", 1, 10, "pending", "active", "system", "system", 0, 0⟩
      rfl rfl rfl (by decide)⟩

theorem cacheGetOrder_inactive (cache : Option Cache) (id : Nat)
    (h : cache = none ∨ ∃ c, cache = some c ∧ (c.enabled = false ∨ c.healthy = false)) :
    cacheGetOrder cache id = none := by
  rcases h with h | ⟨c, rfl, hc⟩
  · rw [h]; rfl
  · rcases hc with hc | hc
    · simp only [cacheGetOrder, hc, Bool.not_false, if_true]
    · by_cases he : c.enabled = true
      · simp only [cacheGetOrder, he, Cache.getJSON, hc, Bool.not_true, Bool.false_eq_true,
          if_false]
      · simp only [cacheGetOrder, Bool.not_eq_true] at he ⊢
        simp only [he, Bool.not_false, if_true]

theorem cacheSetOrder_inactive (cache : Option Cache) (ow : Option OrderWithUser)
    (h : cache = none ∨ ∃ c, cache = some c ∧ (c.enabled = false ∨ c.healthy = false)) :
    cacheSetOrder cache ow = cache := by
  rcases h with h | ⟨c, rfl, hc⟩
  · rw [h]; rfl
  · cases ow with
    | none => rfl
    | some o =>
      rcases hc with hc | hc
      · simp only [cacheSetOrder, hc, Bool.not_false, if_true]
      · by_cases he : c.enabled = true
        · simp only [cacheSetOrder, he, Cache.setJSON, hc, Bool.not_true, Bool.false_eq_true,
            if_false]
        · simp only [cacheSetOrder, Bool.not_eq_true] at he ⊢
          simp only [he, Bool.not_false, if_true]

theorem cacheDeleteOrder_inactive (cache : Option Cache) (id : Nat)
    (h : cache = none ∨ ∃ c, cache = some c ∧ (c.enabled = false ∨ c.healthy = false)) :
    cacheDeleteOrder cache id = cache := by
  rcases h with h | ⟨c, rfl, hc⟩
  · rw [h]; rfl
  · rcases hc with hc | hc
    · simp only [cacheDeleteOrder, hc, Bool.not_false, if_true]
    · by_cases he : c.enabled = true
      · simp only [cacheDeleteOrder, he, Cache.deleteKey, hc, Bool.not_true,
          Bool.false_eq_true, if_false]
      · simp only [cacheDeleteOrder, Bool.not_eq_true] at he ⊢
        simp only [he, Bool.not_false, if_true]

theorem cacheGetOrderList_inactive (cache : Option Cache) (q : ListOrdersQuery)
    (h : cache = none ∨ ∃ c, cache = some c ∧ (c.enabled = false ∨ c.healthy = false)) :
    cacheGetOrderList cache q = none := by
  rcases h with h | ⟨c, rfl, hc⟩
  · rw [h]; rfl
  · rcases hc with hc | hc
    · simp only [cacheGetOrderList, hc, Bool.not_false, if_true]
    · by_cases he : c.enabled = true
      · simp only [cacheGetOrderList, he, Cache.getJSON, hc, Bool.not_true,
          Bool.false_eq_true, if_false]
      · simp only [cacheGetOrderList, Bool.not_eq_true] at he ⊢
        simp only [he, Bool.not_false, if_true]

theorem cacheSetOrderList_inactive (cache : Option Cache) (q : ListOrdersQuery)
    (orders : List Order) (total : Int)
    (h : cache = none ∨ ∃ c, cache = some c ∧ (c.enabled = false ∨ c.healthy = false)) :
    cacheSetOrderList cache q orders total = cache := by
  rcases h with h | ⟨c, rfl, hc⟩
  · rw [h]; rfl
  · rcases hc with hc | hc
    · simp only [cacheSetOrderList, hc, Bool.not_false, if_true]
    · by_cases he : c.enabled = true
      · simp only [cacheSetOrderList, he, Cache.setJSON, hc, Bool.not_true,
          Bool.false_eq_true, if_false]
      · simp only [cacheSetOrderList, Bool.not_eq_true] at he ⊢
        simp only [he, Bool.not_false, if_true]

theorem cacheGetRepository_inactive (cache : Option Cache) (id : Nat)
    (h : cache = none ∨ ∃ c, cache = some c ∧ (c.enabled = false ∨ c.healthy = false)) :
    cacheGetRepository cache id = none := by
  rcases h with h | ⟨c, rfl, hc⟩
  · rw [h]; rfl
  · rcases hc with hc | hc
    · simp only [cacheGetRepository, hc, Bool.not_false, if_true]
    · by_cases he : c.enabled = true
      · simp only [cacheGetRepository, he, Cache.getJSON, hc, Bool.not_true,
          Bool.false_eq_true, if_false]
      · simp only [cacheGetRepository, Bool.not_eq_true] at he ⊢
        simp only [he, Bool.not_false, if_true]

theorem cacheSetRepository_inactive (cache : Option Cache) (r : Option Repository)
    (h : cache = none ∨ ∃ c, cache = some c ∧ (c.enabled = false ∨ c.healthy = false)) :
    cacheSetRepository cache r = cache := by
  rcases h with h | ⟨c, rfl, hc⟩
  · rw [h]; rfl
  · cases r with
    | none => rfl
    | some repo =>
      rcases hc with hc | hc
      · simp only [cacheSetRepository, hc, Bool.not_false, if_true]
      · by_cases he : c.enabled = true
        · simp only [cacheSetRepository, he, Cache.setJSON, hc, Bool.not_true,
            Bool.false_eq_true, if_false]
        · simp only [cacheSetRepository, Bool.not_eq_true] at he ⊢
          simp only [he, Bool.not_false, if_true]

theorem cacheDeleteRepository_inactive (cache : Option Cache) (id : Nat)
    (h : cache = none ∨ ∃ c, cache = some c ∧ (c.enabled = false ∨ c.healthy = false)) :
    cacheDeleteRepository cache id = cache := by
  rcases h with h | ⟨c, rfl, hc⟩
  · rw [h]; rfl
  · rcases hc with hc | hc
    · simp only [cacheDeleteRepository, hc, Bool.not_false, if_true]
    · by_cases he : c.enabled = true
      · simp only [cacheDeleteRepository, he, Cache.deleteKey, hc, Bool.not_true,
          Bool.false_eq_true, if_false]
      · simp only [cacheDeleteRepository, Bool.not_eq_true] at he ⊢
        simp only [he, Bool.not_false, if_true]

theorem cacheGetRepositoryList_inactive (cache : Option Cache) (q : ListRepositoriesQuery)
    (h : cache = none ∨ ∃ c, cache = some c ∧ (c.enabled = false ∨ c.healthy = false)) :
    cacheGetRepositoryList cache q = none := by
  rcases h with h | ⟨c, rfl, hc⟩
  · rw [h]; rfl
  · rcases hc with hc | hc
    · simp only [cacheGetRepositoryList, hc, Bool.not_false, if_true]
    · by_cases he : c.enabled = true
      · simp only [cacheGetRepositoryList, he, Cache.getJSON, hc, Bool.not_true,
          Bool.false_eq_true, if_false]
      · simp only [cacheGetRepositoryList, Bool.not_eq_true] at he ⊢
        simp only [he, Bool.not_false, if_true]

theorem cacheSetRepositoryList_inactive (cache : Option Cache) (q : ListRepositoriesQuery)
    (repos : List Repository) (total : Int)
    (h : cache = none ∨ ∃ c, cache = some c ∧ (c.enabled = false ∨ c.healthy = false)) :
    cacheSetRepositoryList cache q repos total = cache := by
  rcases h with h | ⟨c, rfl, hc⟩
  · rw [h]; rfl
  · rcases hc with hc | hc
    · simp only [cacheSetRepositoryList, hc, Bool.not_false, if_true]
    · by_cases he : c.enabled = true
      · simp only [cacheSetRepositoryList, he, Cache.setJSON, hc, Bool.not_true,
          Bool.false_eq_true, if_false]
      · simp only [cacheSetRepositoryList, Bool.not_eq_true] at he ⊢
        simp only [he, Bool.not_false, if_true]

/-- C5: when the cache client is nil, the cache is disabled, or the backend is
unreachable (every backend operation failing), every cache-aside operation behaves
as a miss or a no-op: all gets miss, all sets and deletes leave the cache unchanged,
and the read paths of both services return exactly the result they would return with
no cache at all while leaving the service state untouched - no cache error ever
reaches the caller. -/
theorem c5_degraded_cache_is_pass_through (cache : Option Cache)
    (h : cache = none ∨ ∃ c, cache = some c ∧ (c.enabled = false ∨ c.healthy = false)) :
    (∀ id, cacheGetOrder cache id = none) ∧
    (∀ ow, cacheSetOrder cache ow = cache) ∧
    (∀ id, cacheDeleteOrder cache id = cache) ∧
    (∀ q, cacheGetOrderList cache q = none) ∧
    (∀ q orders total, cacheSetOrderList cache q orders total = cache) ∧
    (∀ id, cacheGetRepository cache id = none) ∧
    (∀ r, cacheSetRepository cache r = cache) ∧
    (∀ id, cacheDeleteRepository cache id = cache) ∧
    (∀ q, cacheGetRepositoryList cache q = none) ∧
    (∀ q repos total, cacheSetRepositoryList cache q repos total = cache) ∧
    (∀ rows id ur, GetOrder ⟨rows, cache⟩ id ur =
      ((GetOrder ⟨rows, none⟩ id ur).fst, ⟨rows, cache⟩)) ∧
    (∀ rows q, ListOrders ⟨rows, cache⟩ q =
      ((ListOrders ⟨rows, none⟩ q).fst, ⟨rows, cache⟩)) ∧
    (∀ rows id, GetRepository ⟨rows, cache⟩ id =
      ((GetRepository ⟨rows, none⟩ id).fst, ⟨rows, cache⟩)) ∧
    (∀ rows q, ListRepositories ⟨rows, cache⟩ q =
      ((ListRepositories ⟨rows, none⟩ q).fst, ⟨rows, cache⟩)) := by
  refine ⟨fun id => cacheGetOrder_inactive cache id h,
    fun ow => cacheSetOrder_inactive cache ow h,
    fun id => cacheDeleteOrder_inactive cache id h,
    fun q => cacheGetOrderList_inactive cache q h,
    fun q orders total => cacheSetOrderList_inactive cache q orders total h,
    fun id => cacheGetRepository_inactive cache id h,
    fun r => cacheSetRepository_inactive cache r h,
    fun id => cacheDeleteRepository_inactive cache id h,
    fun q => cacheGetRepositoryList_inactive cache q h,
    fun q repos total => cacheSetRepositoryList_inactive cache q repos total h,
    ?_, ?_, ?_, ?_⟩
  · intro rows id ur
    have hn : cacheGetOrder (none : Option Cache) id = none := rfl
    simp only [GetOrder, cacheGetOrder_inactive cache id h, hn]
    cases hf : findOrderByID rows id with
    | none => rfl
    | some o =>
      simp only [cacheSetOrder_inactive cache _ h]
  · intro rows q
    have hn : cacheGetOrderList (none : Option Cache) q.applyDefaults = none := rfl
    simp only [ListOrders, cacheGetOrderList_inactive cache q.applyDefaults h, hn,
      cacheSetOrderList_inactive cache _ _ _ h]
  · intro rows id
    have hn : cacheGetRepository (none : Option Cache) id = none := rfl
    simp only [GetRepository, cacheGetRepository_inactive cache id h, hn]
    cases hf : findRepoByID rows id with
    | none => rfl
    | some r =>
      simp only [cacheSetRepository_inactive cache _ h]
  · intro rows q
    have hn : cacheGetRepositoryList (none : Option Cache) q.applyDefaults = none := rfl
    simp only [ListRepositories, cacheGetRepositoryList_inactive cache q.applyDefaults h, hn,
      cacheSetRepositoryList_inactive cache _ _ _ h]

theorem c5_degraded_cache_is_pass_through_witness :
    ((some ⟨false, true, []⟩ : Option Cache) = none ∨
      ∃ c, (some ⟨false, true, []⟩ : Option Cache) = some c ∧
        (c.enabled = false ∨ c.healthy = false)) ∧
    ((∀ id, cacheGetOrder (some ⟨false, true, []⟩) id = none) ∧
    (∀ ow, cacheSetOrder (some ⟨false, true, []⟩) ow = some ⟨false, true, []⟩) ∧
    (∀ id, cacheDeleteOrder (some ⟨false, true, []⟩) id = some ⟨false, true, []⟩) ∧
    (∀ q, cacheGetOrderList (some ⟨false, true, []⟩) q = none) ∧
    (∀ q orders total,
      cacheSetOrderList (some ⟨false, true, []⟩) q orders total = some ⟨false, true, []⟩) ∧
    (∀ id, cacheGetRepository (some ⟨false, true, []⟩) id = none) ∧
    (∀ r, cacheSetRepository (some ⟨false, true, []⟩) r = some ⟨false, true, []⟩) ∧
    (∀ id, cacheDeleteRepository (some ⟨false, true, []⟩) id = some ⟨false, true, []⟩) ∧
    (∀ q, cacheGetRepositoryList (some ⟨false, true, []⟩) q = none) ∧
    (∀ q repos total,
      cacheSetRepositoryList (some ⟨false, true, []⟩) q repos total =
        some ⟨false, true, []⟩) ∧
    (∀ rows id ur, GetOrder ⟨rows, some ⟨false, true, []⟩⟩ id ur =
      ((GetOrder ⟨rows, none⟩ id ur).fst, ⟨rows, some ⟨false, true, []⟩⟩)) ∧
    (∀ rows q, ListOrders ⟨rows, some ⟨false, true, []⟩⟩ q =
      ((ListOrders ⟨rows, none⟩ q).fst, ⟨rows, some ⟨false, true, []⟩⟩)) ∧
    (∀ rows id, GetRepository ⟨rows, some ⟨false, true, []⟩⟩ id =
      ((GetRepository ⟨rows, none⟩ id).fst, ⟨rows, some ⟨false, true, []⟩⟩)) ∧
    (∀ rows q, ListRepositories ⟨rows, some ⟨false, true, []⟩⟩ q =
      ((ListRepositories ⟨rows, none⟩ q).fst, ⟨rows, some ⟨false, true, []⟩⟩))) :=
  ⟨Or.inr ⟨⟨false, true, []⟩, rfl, Or.inl rfl⟩,
    c5_degraded_cache_is_pass_through (some ⟨false, true, []⟩)
      (Or.inr ⟨⟨false, true, []⟩, rfl, Or.inl rfl⟩)⟩

/-- C9 counterexample: with a non-numeric rate limit in the environment, Load does
not fail - it succeeds and substitutes the default value 100; likewise a non-numeric
cache TTL is replaced by the default 300 seconds.  Configuration errors are
therefore not fatal at startup. -/
theorem c9_counterexample_load_succeeds_on_bad_values :
    (∃ c, Load ⟨fun k => if k = "ORDER_SERVICE_RATE_LIMIT" then "abc" else ""⟩ =
      Except.ok c ∧ c.server.rateLimit = 100) ∧
    (∃ c, Load ⟨fun k => if k = "REDIS_TTL_SECONDS" then "xyz" else ""⟩ =
      Except.ok c ∧ c.redis.defaultTTL = 300) :=
  ⟨⟨_, rfl, rfl⟩, ⟨_, rfl, by
    show (Int.cast (match atoi (getEnv ⟨fun k => if k = "REDIS_TTL_SECONDS" then "xyz" else ""⟩
        "REDIS_TTL_SECONDS" "300") with
      | some n => n
      | none => 300) : ℚ) = 300
    rw [show atoi (getEnv ⟨fun k => if k = "REDIS_TTL_SECONDS" then "xyz" else ""⟩
      "REDIS_TTL_SECONDS" "300") = none from rfl]
    norm_num⟩⟩

/-- C9 amended: Load never fails - for every environment it returns a configuration,
and when a numeric variable such as the rate limit or the cache TTL does not parse,
the documented default (100 requests, 300 seconds) is silently substituted, so the
service starts serving traffic with default values instead of refusing to start. -/
theorem c9_load_never_fails_and_substitutes_defaults :
    (∀ env : Env, ∃ c, Load env = Except.ok c) ∧
    (∀ env : Env, atoi (getEnv env "ORDER_SERVICE_RATE_LIMIT" "100") = none →
      ∃ c, Load env = Except.ok c ∧ c.server.rateLimit = 100) ∧
    (∀ env : Env, atoi (getEnv env "REDIS_TTL_SECONDS" "300") = none →
      ∃ c, Load env = Except.ok c ∧ c.redis.defaultTTL = 300) := by
  refine ⟨fun env => ⟨_, rfl⟩, fun env hi => ⟨_, rfl, ?_⟩, fun env hi => ⟨_, rfl, ?_⟩⟩
  · show (match atoi (getEnv env "ORDER_SERVICE_RATE_LIMIT" "100") with
      | some n => n
      | none => 100 : ℤ) = 100
    rw [hi]
  · show (Int.cast (match atoi (getEnv env "REDIS_TTL_SECONDS" "300") with
      | some n => n
      | none => 300) : ℚ) = 300
    rw [hi]
    norm_num

theorem c9_load_never_fails_witness :
    atoi (getEnv ⟨fun k => if k = "ORDER_SERVICE_RATE_LIMIT" then "abc" else ""⟩
      "ORDER_SERVICE_RATE_LIMIT" "100") = none ∧
    ∃ c, Load ⟨fun k => if k = "ORDER_SERVICE_RATE_LIMIT" then "abc" else ""⟩ =
      Except.ok c ∧ c.server.rateLimit = 100 :=
  ⟨rfl, c9_load_never_fails_and_substitutes_defaults.2.1
    ⟨fun k => if k = "ORDER_SERVICE_RATE_LIMIT" then "abc" else ""⟩ rfl⟩

theorem string_data_inj {a b : String} (h : a.data = b.data) : a = b := by
  cases a
  cases b
  exact congrArg _ h

theorem orderKeyOfFields_data (f : OrderKeyFields) :
    (orderKeyOfFields f).data =
      "orders:list:p".data ++ (intStr f.page).data ++ ":ps".data ++
      (intStr f.pageSize).data ++ ":user:".data ++ f.user.data ++ ":order_status:".data ++
      f.orderStatus.data ++ ":record_status:".data ++ f.recordStatus.data ++
      ":product:".data ++ f.product.data := rfl

theorem repoKeyOfFields_data (f : RepoKeyFields) :
    (repoKeyOfFields f).data =
      "repositories:list:p".data ++ (intStr f.page).data ++ ":ps".data ++
      (intStr f.pageSize).data ++ ":search:".data ++ f.search.data ++ ":owner:".data ++
      f.owner.data ++ ":visibility:".data ++ f.visibility.data ++ ":status:".data ++
      f.status.data := rfl

theorem orderKey_slot_page (f : OrderKeyFields) (p : Int)
    (h : orderKeyOfFields { f with page := p } = orderKeyOfFields f) :
    intStr p = intStr f.page := by
  have hd := congrArg String.data h
  rw [orderKeyOfFields_data, orderKeyOfFields_data] at hd
  dsimp only at hd
  have h1 := List.append_cancel_right hd
  have h2 := List.append_cancel_right h1
  have h3 := List.append_cancel_right h2
  have h4 := List.append_cancel_right h3
  have h5 := List.append_cancel_right h4
  have h6 := List.append_cancel_right h5
  have h7 := List.append_cancel_right h6
  have h8 := List.append_cancel_right h7
  have h9 := List.append_cancel_right h8
  have h10 := List.append_cancel_right h9
  exact string_data_inj (List.append_cancel_left h10)

theorem orderKey_slot_pageSize (f : OrderKeyFields) (ps : Int)
    (h : orderKeyOfFields { f with pageSize := ps } = orderKeyOfFields f) :
    intStr ps = intStr f.pageSize := by
  have hd := congrArg String.data h
  rw [orderKeyOfFields_data, orderKeyOfFields_data] at hd
  dsimp only at hd
  have h1 := List.append_cancel_right hd
  have h2 := List.append_cancel_right h1
  have h3 := List.append_cancel_right h2
  have h4 := List.append_cancel_right h3
  have h5 := List.append_cancel_right h4
  have h6 := List.append_cancel_right h5
  have h7 := List.append_cancel_right h6
  have h8 := List.append_cancel_right h7
  exact string_data_inj (List.append_cancel_left h8)

theorem orderKey_slot_user (f : OrderKeyFields) (u : String)
    (h : orderKeyOfFields { f with user := u } = orderKeyOfFields f) :
    u = f.user := by
  have hd := congrArg String.data h
  rw [orderKeyOfFields_data, orderKeyOfFields_data] at hd
  dsimp only at hd
  have h1 := List.append_cancel_right hd
  have h2 := List.append_cancel_right h1
  have h3 := List.append_cancel_right h2
  have h4 := List.append_cancel_right h3
  have h5 := List.append_cancel_right h4
  have h6 := List.append_cancel_right h5
  exact string_data_inj (List.append_cancel_left h6)

theorem orderKey_slot_orderStatus (f : OrderKeyFields) (os : String)
    (h : orderKeyOfFields { f with orderStatus := os } = orderKeyOfFields f) :
    os = f.orderStatus := by
  have hd := congrArg String.data h
  rw [orderKeyOfFields_data, orderKeyOfFields_data] at hd
  dsimp only at hd
  have h1 := List.append_cancel_right hd
  have h2 := List.append_cancel_right h1
  have h3 := List.append_cancel_right h2
  have h4 := List.append_cancel_right h3
  exact string_data_inj (List.append_cancel_left h4)

theorem orderKey_slot_recordStatus (f : OrderKeyFields) (rs : String)
    (h : orderKeyOfFields { f with recordStatus := rs } = orderKeyOfFields f) :
    rs = f.recordStatus := by
  have hd := congrArg String.data h
  rw [orderKeyOfFields_data, orderKeyOfFields_data] at hd
  dsimp only at hd
  have h1 := List.append_cancel_right hd
  have h2 := List.append_cancel_right h1
  exact string_data_inj (List.append_cancel_left h2)

theorem orderKey_slot_product (f : OrderKeyFields) (pr : String)
    (h : orderKeyOfFields { f with product := pr } = orderKeyOfFields f) :
    pr = f.product := by
  have hd := congrArg String.data h
  rw [orderKeyOfFields_data, orderKeyOfFields_data] at hd
  dsimp only at hd
  exact string_data_inj (List.append_cancel_left hd)

theorem repoKey_slot_page (f : RepoKeyFields) (p : Int)
    (h : repoKeyOfFields { f with page := p } = repoKeyOfFields f) :
    intStr p = intStr f.page := by
  have hd := congrArg String.data h
  rw [repoKeyOfFields_data, repoKeyOfFields_data] at hd
  dsimp only at hd
  have h1 := List.append_cancel_right hd
  have h2 := List.append_cancel_right h1
  have h3 := List.append_cancel_right h2
  have h4 := List.append_cancel_right h3
  have h5 := List.append_cancel_right h4
  have h6 := List.append_cancel_right h5
  have h7 := List.append_cancel_right h6
  have h8 := List.append_cancel_right h7
  have h9 := List.append_cancel_right h8
  have h10 := List.append_cancel_right h9
  exact string_data_inj (List.append_cancel_left h10)

theorem repoKey_slot_pageSize (f : RepoKeyFields) (ps : Int)
    (h : repoKeyOfFields { f with pageSize := ps } = repoKeyOfFields f) :
    intStr ps = intStr f.pageSize := by
  have hd := congrArg String.data h
  rw [repoKeyOfFields_data, repoKeyOfFields_data] at hd
  dsimp only at hd
  have h1 := List.append_cancel_right hd
  have h2 := List.append_cancel_right h1
  have h3 := List.append_cancel_right h2
  have h4 := List.append_cancel_right h3
  have h5 := List.append_cancel_right h4
  have h6 := List.append_cancel_right h5
  have h7 := List.append_cancel_right h6
  have h8 := List.append_cancel_right h7
  exact string_data_inj (List.append_cancel_left h8)

theorem repoKey_slot_search (f : RepoKeyFields) (se : String)
    (h : repoKeyOfFields { f with search := se } = repoKeyOfFields f) :
    se = f.search := by
  have hd := congrArg String.data h
  rw [repoKeyOfFields_data, repoKeyOfFields_data] at hd
  dsimp only at hd
  have h1 := List.append_cancel_right hd
  have h2 := List.append_cancel_right h1
  have h3 := List.append_cancel_right h2
  have h4 := List.append_cancel_right h3
  have h5 := List.append_cancel_right h4
  have h6 := List.append_cancel_right h5
  exact string_data_inj (List.append_cancel_left h6)

theorem repoKey_slot_owner (f : RepoKeyFields) (ow : String)
    (h : repoKeyOfFields { f with owner := ow } = repoKeyOfFields f) :
    ow = f.owner := by
  have hd := congrArg String.data h
  rw [repoKeyOfFields_data, repoKeyOfFields_data] at hd
  dsimp only at hd
  have h1 := List.append_cancel_right hd
  have h2 := List.append_cancel_right h1
  have h3 := List.append_cancel_right h2
  have h4 := List.append_cancel_right h3
  exact string_data_inj (List.append_cancel_left h4)

theorem repoKey_slot_visibility (f : RepoKeyFields) (vi : String)
    (h : repoKeyOfFields { f with visibility := vi } = repoKeyOfFields f) :
    vi = f.visibility := by
  have hd := congrArg String.data h
  rw [repoKeyOfFields_data, repoKeyOfFields_data] at hd
  dsimp only at hd
  have h1 := List.append_cancel_right hd
  have h2 := List.append_cancel_right h1
  exact string_data_inj (List.append_cancel_left h2)

theorem repoKey_slot_status (f : RepoKeyFields) (st : String)
    (h : repoKeyOfFields { f with status := st } = repoKeyOfFields f) :
    st = f.status := by
  have hd := congrArg String.data h
  rw [repoKeyOfFields_data, repoKeyOfFields_data] at hd
  dsimp only at hd
  exact string_data_inj (List.append_cancel_left hd)

theorem userField_inj (a b : Option Nat)
    (h : (match a with | some v => natStr v | none => "any") =
         (match b with | some v => natStr v | none => "any")) : a = b := by
  cases a with
  | none =>
    cases b with
    | none => rfl
    | some v => exact absurd h.symm (natStr_ne_any v)
  | some u =>
    cases b with
    | none => exact absurd h (natStr_ne_any u)
    | some v => exact congrArg some (natStr_injective h)

theorem sentinelOptField_inj (s : String) (a b : Option String)
    (h : (match a with | some x => x | none => s) =
         (match b with | some x => x | none => s))
    (ha : a ≠ some s) (hb : b ≠ some s) : a = b := by
  cases a with
  | none =>
    cases b with
    | none => rfl
    | some y => exact absurd (congrArg some h.symm) hb
  | some x =>
    cases b with
    | none => exact absurd (congrArg some h) ha
    | some y => exact congrArg some h

theorem trimField_inj (a b : String)
    (ha : a = "" ∨ (trimStr a = a ∧ a ≠ "all"))
    (hb : b = "" ∨ (trimStr b = b ∧ b ≠ "all"))
    (h : (if trimStr a = "" then "all" else trimStr a) =
         (if trimStr b = "" then "all" else trimStr b)) : a = b := by
  have hta : trimStr a = a := by
    rcases ha with h1 | h1
    · rw [h1]; rfl
    · exact h1.1
  have htb : trimStr b = b := by
    rcases hb with h1 | h1
    · rw [h1]; rfl
    · exact h1.1
  rw [hta, htb] at h
  by_cases hae : a = ""
  · by_cases hbe : b = ""
    · rw [hae, hbe]
    · rw [if_pos hae, if_neg hbe] at h
      rcases hb with h1 | h1
      · exact absurd h1 hbe
      · exact absurd h.symm h1.2
  · by_cases hbe : b = ""
    · rw [if_neg hae, if_pos hbe] at h
      rcases ha with h1 | h1
      · exact absurd h1 hae
      · exact absurd h h1.2
    · rw [if_neg hae, if_neg hbe] at h
      exact h

theorem emptyField_inj (a b : String) (ha : a ≠ "all") (hb : b ≠ "all")
    (h : (if a = "" then "all" else a) = (if b = "" then "all" else b)) : a = b := by
  by_cases hae : a = ""
  · by_cases hbe : b = ""
    · rw [hae, hbe]
    · rw [if_pos hae, if_neg hbe] at h
      exact absurd h.symm hb
  · by_cases hbe : b = ""
    · rw [if_neg hae, if_pos hbe] at h
      exact absurd h ha
    · rw [if_neg hae, if_neg hbe] at h
      exact h

/-- C6: the list-cache fingerprint is a deterministic function of the normalized
filter and pagination fields, for orders (orderListCacheKey) and repositories
(repositoryListCacheKey): two queries with identical normalized fields produce
identical keys; and for every normalized query, changing any single field (page,
page size, user or owner id, order status, record status, product id, search,
visibility, status) to a different normalized value always produces a different key. -/
theorem c6_list_fingerprint_deterministic_and_field_injective :
    (∀ q1 q2 : ListOrdersQuery, orderNormalFields q1 = orderNormalFields q2 →
      orderListCacheKey q1 = orderListCacheKey q2) ∧
    (∀ q1 q2 : ListRepositoriesQuery, repoNormalFields q1 = repoNormalFields q2 →
      repositoryListCacheKey q1 = repositoryListCacheKey q2) ∧
    (∀ q : ListOrdersQuery, normalizedOrderQuery q →
      (∀ p : Int, 1 ≤ p → p ≠ q.page →
        orderListCacheKey { q with page := p } ≠ orderListCacheKey q) ∧
      (∀ p : Int, 1 ≤ p → p ≠ q.pageSize →
        orderListCacheKey { q with pageSize := p } ≠ orderListCacheKey q) ∧
      (∀ u : Option Nat, u ≠ q.userId →
        orderListCacheKey { q with userId := u } ≠ orderListCacheKey q) ∧
      (∀ s : Option String, s ≠ some "all" → s ≠ q.orderStatus →
        orderListCacheKey { q with orderStatus := s } ≠ orderListCacheKey q) ∧
      (∀ s : Option String, s ≠ some "any" → s ≠ q.status →
        orderListCacheKey { q with status := s } ≠ orderListCacheKey q) ∧
      (∀ s : String, (s = "" ∨ (trimStr s = s ∧ s ≠ "all")) → s ≠ q.productId →
        orderListCacheKey { q with productId := s } ≠ orderListCacheKey q)) ∧
    (∀ q : ListRepositoriesQuery, normalizedRepoQuery q →
      (∀ p : Int, 1 ≤ p → p ≠ q.page →
        repositoryListCacheKey { q with page := p } ≠ repositoryListCacheKey q) ∧
      (∀ p : Int, 1 ≤ p → p ≠ q.pageSize →
        repositoryListCacheKey { q with pageSize := p } ≠ repositoryListCacheKey q) ∧
      (∀ s : String, (s = "" ∨ (trimStr s = s ∧ s ≠ "all")) → s ≠ q.search →
        repositoryListCacheKey { q with search := s } ≠ repositoryListCacheKey q) ∧
      (∀ u : Option Nat, u ≠ q.ownerId →
        repositoryListCacheKey { q with ownerId := u } ≠ repositoryListCacheKey q) ∧
      (∀ s : String, s ≠ "all" → s ≠ q.visibility →
        repositoryListCacheKey { q with visibility := s } ≠ repositoryListCacheKey q) ∧
      (∀ s : Option String, s ≠ some "any" → s ≠ q.status →
        repositoryListCacheKey { q with status := s } ≠ repositoryListCacheKey q)) := by
  refine ⟨?_, ?_, ?_, ?_⟩
  · intro q1 q2 h
    exact congrArg orderKeyOfFields h
  · intro q1 q2 h
    exact congrArg repoKeyOfFields h
  · intro q hq
    obtain ⟨hpage, hps, hos, hst, hprod⟩ := hq
    refine ⟨?_, ?_, ?_, ?_, ?_, ?_⟩
    · intro p hp hne hkey
      have h := orderKey_slot_page (orderNormalFields q) p hkey
      have h2 : intStr p = intStr q.page := h
      exact hne (intStr_inj_of_nonneg (by omega) (by omega) h2)
    · intro p hp hne hkey
      have h := orderKey_slot_pageSize (orderNormalFields q) p hkey
      have h2 : intStr p = intStr q.pageSize := h
      exact hne (intStr_inj_of_nonneg (by omega) (by omega) h2)
    · intro u hne hkey
      have h := orderKey_slot_user (orderNormalFields q) _ hkey
      exact hne (userField_inj u q.userId h)
    · intro s hsent hne hkey
      have h := orderKey_slot_orderStatus (orderNormalFields q) _ hkey
      exact hne (sentinelOptField_inj "all" s q.orderStatus h hsent hos)
    · intro s hsent hne hkey
      have h := orderKey_slot_recordStatus (orderNormalFields q) _ hkey
      exact hne (sentinelOptField_inj "any" s q.status h hsent hst)
    · intro s hnorm hne hkey
      have h := orderKey_slot_product (orderNormalFields q) _ hkey
      exact hne (trimField_inj s q.productId hnorm hprod h)
  · intro q hq
    obtain ⟨hpage, hps, hsearch, hvis, hstat⟩ := hq
    refine ⟨?_, ?_, ?_, ?_, ?_, ?_⟩
    · intro p hp hne hkey
      have h := repoKey_slot_page (repoNormalFields q) p hkey
      have h2 : intStr p = intStr q.page := h
      exact hne (intStr_inj_of_nonneg (by omega) (by omega) h2)
    · intro p hp hne hkey
      have h := repoKey_slot_pageSize (repoNormalFields q) p hkey
      have h2 : intStr p = intStr q.pageSize := h
      exact hne (intStr_inj_of_nonneg (by omega) (by omega) h2)
    · intro s hnorm hne hkey
      have h := repoKey_slot_search (repoNormalFields q) _ hkey
      exact hne (trimField_inj s q.search hnorm hsearch h)
    · intro u hne hkey
      have h := repoKey_slot_owner (repoNormalFields q) _ hkey
      exact hne (userField_inj u q.ownerId h)
    · intro s hsent hne hkey
      have h := repoKey_slot_visibility (repoNormalFields q) _ hkey
      exact hne (emptyField_inj s q.visibility hsent hvis h)
    · intro s hsent hne hkey
      have h := repoKey_slot_status (repoNormalFields q) _ hkey
      exact hne (sentinelOptField_inj "any" s q.status h hsent hstat)

/-- Witness for C6: changing the page of a concrete normalized order query changes
its orderListCacheKey, and adding an owner filter to a concrete normalized
repository query changes its repositoryListCacheKey. -/
theorem c6_list_fingerprint_deterministic_and_field_injective_witness :
    orderListCacheKey ⟨2, 10, none, none, none, ""⟩ ≠
      orderListCacheKey ⟨1, 10, none, none, none, ""⟩ ∧
    repositoryListCacheKey ⟨1, 10, "", some 7, "", none⟩ ≠
      repositoryListCacheKey ⟨1, 10, "", none, "", none⟩ := by
  have hq : normalizedOrderQuery ⟨1, 10, none, none, none, ""⟩ :=
    ⟨by norm_num, by norm_num, fun h => Option.noConfusion h,
     fun h => Option.noConfusion h, Or.inl rfl⟩
  have hr : normalizedRepoQuery ⟨1, 10, "", none, "", none⟩ :=
    ⟨by norm_num, by norm_num, Or.inl rfl, by decide, fun h => Option.noConfusion h⟩
  constructor
  · exact (c6_list_fingerprint_deterministic_and_field_injective.2.2.1
      ⟨1, 10, none, none, none, ""⟩ hq).1 2 (by norm_num) (by norm_num)
  · exact (c6_list_fingerprint_deterministic_and_field_injective.2.2.2
      ⟨1, 10, "", none, "", none⟩ hr).2.2.2.1 (some 7) (fun h => Option.noConfusion h)
